import Mathlib

/-!
# opengl-learning: the indexed mesh and the call sequence of `main`

A shallow embedding of `src/main.cpp`.

* The two local arrays `vertices` and `indices` are embedded as lists.  The coordinates are
  read as exact numbers of a field; the value of `sqrt(3)` is a parameter, instantiated with
  `Real.sqrt 3` in the theorems.
* `main` is embedded as a function from the answers of the outside world (`Env`) to the list
  of API calls it issues together with its return value.  The `while` loop is unfolded with
  fuel; when the fuel runs out before the window asks to close, the result is the list of
  calls issued so far and no return value.
* `GLState` is a small model of the OpenGL binding state touched by those calls.
-/

namespace OpenGLLearning

/-! ## The mesh (lines 82-97) -/

/-- The array `vertices` (lines 82-90): 18 numbers, three per vertex.  `sqrt3` stands for
`static_cast<float>(sqrt(3))`. -/
def vertices {R : Type} [Field R] (sqrt3 : R) : List R :=
  [ -0.5, -0.5 * sqrt3 / 3, 0.0,
    0.5, -0.5 * sqrt3 / 3, 0.0,
    0.0, 0.5 * sqrt3 * 2 / 3, 0.0,
    -0.5 / 2, 0.5 * sqrt3 / 6, 0.0,
    0.5 / 2, 0.5 * sqrt3 / 6, 0.0,
    -0.0, -0.5 * sqrt3 / 3, 0.0 ]

/-- The array `indices` (lines 92-97). -/
def indices : List Nat :=
  [ 0, 3, 5,
    3, 2, 4,
    5, 4, 1 ]

/-- The x and y coordinate of vertex `i`, as laid out by
`glVertexAttribPointer(0, 3, GL_FLOAT, GL_FALSE, 3 * sizeof(float), nullptr)` (line 117):
vertex `i` starts at element `3 * i`; the z coordinate (always 0) is dropped. -/
def position {R : Type} [Field R] (vs : List R) (i : Nat) : R × R :=
  (vs.getD (3 * i) 0, vs.getD (3 * i + 1) 0)

/-- The index triples assembled by `GL_TRIANGLES`: consecutive groups of three indices. -/
def triangles : List Nat → List (Nat × Nat × Nat)
  | a :: b :: c :: rest => (a, b, c) :: triangles rest
  | _ => []

/-- Twice the signed area of the triangle `a b c` (shoelace formula). -/
def signedArea2 {R : Type} [Field R] (a b c : R × R) : R :=
  (b.1 - a.1) * (c.2 - a.2) - (c.1 - a.1) * (b.2 - a.2)

/-- The point `p` lies in the closed triangle with corners `a b c`: it is a convex
combination of the corners. -/
def InTriangle (a b c p : ℝ × ℝ) : Prop :=
  ∃ u v w : ℝ, 0 ≤ u ∧ 0 ≤ v ∧ 0 ≤ w ∧ u + v + w = 1 ∧
    p.1 = u * a.1 + v * b.1 + w * c.1 ∧ p.2 = u * a.2 + v * b.2 + w * c.2

/-- The point `p` lies in the interior of the triangle with corners `a b c`: all three
barycentric weights are positive. -/
def InInterior (a b c p : ℝ × ℝ) : Prop :=
  ∃ u v w : ℝ, 0 < u ∧ 0 < v ∧ 0 < w ∧ u + v + w = 1 ∧
    p.1 = u * a.1 + v * b.1 + w * c.1 ∧ p.2 = u * a.2 + v * b.2 + w * c.2

/-- The point `p` lies in the closed triangle selected by the index triple `t`. -/
def InTri (vs : List ℝ) (t : Nat × Nat × Nat) (p : ℝ × ℝ) : Prop :=
  InTriangle (position vs t.1) (position vs t.2.1) (position vs t.2.2) p

/-- The point `p` lies in the interior of the triangle selected by the index triple `t`. -/
def InTriInterior (vs : List ℝ) (t : Nat × Nat × Nat) (p : ℝ × ℝ) : Prop :=
  InInterior (position vs t.1) (position vs t.2.1) (position vs t.2.2) p

/-- Twice the signed area of the triangle selected by the index triple `t`. -/
def triSignedArea2 {R : Type} [Field R] (vs : List R) (t : Nat × Nat × Nat) : R :=
  signedArea2 (position vs t.1) (position vs t.2.1) (position vs t.2.2)

/-- The local variables of `main` that hold the GLuint name of a GPU object. -/
inductive Obj
  | vertexShader | fragmentShader | shaderProgram | VAO | VBO | EBO
  deriving DecidableEq

/-- The GL constants used by `main`; they are macros of glad/glad.h and stay symbolic. -/
inductive GLenum
  | GL_VERTEX_SHADER | GL_FRAGMENT_SHADER | GL_ARRAY_BUFFER | GL_ELEMENT_ARRAY_BUFFER
  | GL_STATIC_DRAW | GL_FLOAT | GL_TRIANGLES | GL_UNSIGNED_INT | GL_COLOR_BUFFER_BIT
  deriving DecidableEq

/-- The integer arguments of glfwWindowHint: a literal, or a macro of GLFW/glfw3.h. -/
inductive GLFWint
  | lit (n : Int)
  | GLFW_CONTEXT_VERSION_MAJOR | GLFW_CONTEXT_VERSION_MINOR
  | GLFW_OPENGL_PROFILE | GLFW_OPENGL_CORE_PROFILE
  deriving DecidableEq

/-- The host pointers handed to the API: the two static shader strings, the two local
arrays, or nullptr. -/
inductive HostPtr
  | nullptr | vertex_shader_source | fragment_shader_source | vertices | indices
  deriving DecidableEq

/-- A decimal float literal: `mantissa / 10 ^ places`, so `0.07f` is `⟨7, 2⟩`. -/
structure Decimal where
  mantissa : Int
  places : Nat
  deriving DecidableEq

/-- A `GLFWwindow*`; the value 0 is nullptr. -/
abbrev WindowPtr := Nat

/-- The null window pointer. -/
def nullptr : WindowPtr := 0

/-- The value of `sizeof(float)`, equal to `sizeof(GLfloat)`: 4 bytes. -/
def sizeof_float : Nat := 4

/-- The value of `sizeof(GLuint)`: 4 bytes. -/
def sizeof_GLuint : Nat := 4

/-- The value of `sizeof(vertices)`: the number of elements times the element size. -/
def sizeof_vertices : Nat := (vertices (0 : ℚ)).length * sizeof_float

/-- The value of `sizeof(indices)`: the number of elements times the element size. -/
def sizeof_indices : Nat := indices.length * sizeof_GLuint

/-- One call issued by `main`, with its arguments.  An object argument is recorded as the
variable of `main` that is passed (`none` is the literal 0); a creating call records the
variable that receives the new name.  `cout` is one `operator<<` on standard output. -/
inductive Call
  | glfwInit
  | glfwWindowHint (hint value : GLFWint)
  | glfwCreateWindow (width height : Nat) (title : String) (monitor share : WindowPtr)
  | cout (text : String)
  | glfwTerminate
  | glfwMakeContextCurrent (window : WindowPtr)
  | gladLoadGL
  | glViewport (x y width height : Int)
  | glCreateShader (type : GLenum) (result : Obj)
  | glShaderSource (shader : Obj) (count : Nat) (string length : HostPtr)
  | glCompileShader (shader : Obj)
  | glCreateProgram (result : Obj)
  | glAttachShader (program shader : Obj)
  | glLinkProgram (program : Obj)
  | glDeleteShader (shader : Obj)
  | glGenVertexArrays (n : Nat) (arrays : Obj)
  | glGenBuffers (n : Nat) (buffers : Obj)
  | glBindVertexArray (array : Option Obj)
  | glBindBuffer (target : GLenum) (buffer : Option Obj)
  | glBufferData (target : GLenum) (size : Nat) (data : HostPtr) (usage : GLenum)
  | glVertexAttribPointer (index : Nat) (size : Nat) (type : GLenum) (normalized : Bool)
      (stride : Nat) (pointer : Nat)
  | glEnableVertexAttribArray (index : Nat)
  | glfwWindowShouldClose (window : WindowPtr)
  | glClearColor (red green blue alpha : Decimal)
  | glClear (mask : GLenum)
  | glUseProgram (program : Option Obj)
  | glDrawElements (mode : GLenum) (count : Nat) (type : GLenum) (offset : Nat)
  | glfwSwapBuffers (window : WindowPtr)
  | glfwPollEvents
  | glDeleteVertexArrays (n : Nat) (arrays : Obj)
  | glDeleteBuffers (n : Nat) (buffers : Obj)
  | glDeleteProgram (program : Obj)
  | glfwDestroyWindow (window : WindowPtr)
  deriving DecidableEq

/-- The answers of the outside world during one run of `main`. -/
structure Env where
  /-- The pointer returned by glfwCreateWindow (0 is nullptr). -/
  glfwCreateWindow : WindowPtr
  /-- The answer of the k-th call of glfwWindowShouldClose, for k = 0, 1, 2, ... -/
  glfwWindowShouldClose : Nat → Bool
  /-- The GLuint stored into each object variable by glCreateShader, glCreateProgram or
  glGen*; `main` never inspects it. -/
  objectName : Obj → Nat
  /-- The compile status of each shader; `main` never queries it. -/
  compileStatus : Obj → Bool
  /-- The link status of the program; `main` never queries it. -/
  linkStatus : Bool

/-- Lines 25-37: library initialisation, the three hints and window creation. -/
def windowCalls : List Call :=
  [ .glfwInit,
    .glfwWindowHint .GLFW_CONTEXT_VERSION_MAJOR (.lit 3),
    .glfwWindowHint .GLFW_CONTEXT_VERSION_MINOR (.lit 3),
    .glfwWindowHint .GLFW_OPENGL_PROFILE .GLFW_OPENGL_CORE_PROFILE,
    .glfwCreateWindow 800 800 "OpenGL Learning" nullptr nullptr ]

/-- Lines 42-43: the body of the null check, before `return -1`. -/
def failureCalls : List Call :=
  [ .cout "Failed to create GLFW window",
    .cout "\n",
    .glfwTerminate ]

/-- Lines 47-124: context, shaders, program, buffers and vertex array. -/
def setupCalls (window : WindowPtr) : List Call :=
  [ .glfwMakeContextCurrent window,
    .gladLoadGL,
    .glViewport 0 0 800 800,
    .glCreateShader .GL_VERTEX_SHADER .vertexShader,
    .glShaderSource .vertexShader 1 .vertex_shader_source .nullptr,
    .glCompileShader .vertexShader,
    .glCreateShader .GL_FRAGMENT_SHADER .fragmentShader,
    .glShaderSource .fragmentShader 1 .fragment_shader_source .nullptr,
    .glCompileShader .fragmentShader,
    .glCreateProgram .shaderProgram,
    .glAttachShader .shaderProgram .vertexShader,
    .glAttachShader .shaderProgram .fragmentShader,
    .glLinkProgram .shaderProgram,
    .glDeleteShader .vertexShader,
    .glDeleteShader .fragmentShader,
    .glGenVertexArrays 1 .VAO,
    .glGenBuffers 1 .VBO,
    .glGenBuffers 1 .EBO,
    .glBindVertexArray (some .VAO),
    .glBindBuffer .GL_ARRAY_BUFFER (some .VBO),
    .glBufferData .GL_ARRAY_BUFFER sizeof_vertices .vertices .GL_STATIC_DRAW,
    .glBindBuffer .GL_ELEMENT_ARRAY_BUFFER (some .EBO),
    .glBufferData .GL_ELEMENT_ARRAY_BUFFER sizeof_indices .indices .GL_STATIC_DRAW,
    .glVertexAttribPointer 0 3 .GL_FLOAT false (3 * sizeof_float) 0,
    .glEnableVertexAttribArray 0,
    .glBindBuffer .GL_ARRAY_BUFFER none,
    .glBindVertexArray none,
    .glBindBuffer .GL_ELEMENT_ARRAY_BUFFER none ]

/-- Lines 130-144: the body of the while loop. -/
def frameCalls (window : WindowPtr) : List Call :=
  [ .glClearColor ⟨7, 2⟩ ⟨13, 2⟩ ⟨17, 2⟩ ⟨10, 1⟩,
    .glClear .GL_COLOR_BUFFER_BIT,
    .glUseProgram (some .shaderProgram),
    .glBindVertexArray (some .VAO),
    .glDrawElements .GL_TRIANGLES 9 .GL_UNSIGNED_INT 0,
    .glfwSwapBuffers window,
    .glfwPollEvents ]

/-- Lines 148-156: teardown, before `return 0`. -/
def teardownCalls (window : WindowPtr) : List Call :=
  [ .glDeleteVertexArrays 1 .VAO,
    .glDeleteBuffers 1 .VBO,
    .glDeleteBuffers 1 .EBO,
    .glDeleteProgram .shaderProgram,
    .glfwDestroyWindow window,
    .glfwTerminate ]

/-- Lines 127-145: the while loop.  `polls` counts the earlier calls of
glfwWindowShouldClose.  Each unit of fuel pays for one evaluation of the loop condition.
The result is the list of calls issued and whether the loop was left: `false` means the
fuel ran out while the window still did not ask to close, and the calls are those issued
so far. -/
def renderLoop (env : Env) (window : WindowPtr) : Nat → Nat → List Call × Bool
  | 0, _ => ([], false)
  | fuel + 1, polls =>
    if !env.glfwWindowShouldClose polls then
      (.glfwWindowShouldClose window :: frameCalls window ++
          (renderLoop env window fuel (polls + 1)).1,
        (renderLoop env window fuel (polls + 1)).2)
    else
      ([.glfwWindowShouldClose window], true)

/-- The function `main` (lines 22-158): the calls it issues, in order, and its return
value; the return value is `none` when the fuel ran out inside the loop, the calls then
being those issued so far. -/
def main (env : Env) (fuel : Nat) : List Call × Option Int :=
  let window := env.glfwCreateWindow
  if window = nullptr then
    (windowCalls ++ failureCalls, some (-1))
  else
    let loop := renderLoop env window fuel 0
    if loop.2 then
      (windowCalls ++ setupCalls window ++ loop.1 ++ teardownCalls window, some 0)
    else
      (windowCalls ++ setupCalls window ++ loop.1, none)

/-- The calls of `n` completed loop iterations: each is one evaluation of the loop
condition followed by one loop body. -/
def iterations (window : WindowPtr) : Nat → List Call
  | 0 => []
  | n + 1 => .glfwWindowShouldClose window :: frameCalls window ++ iterations window n

/-! ## Classifying calls -/

/-- The call is an OpenGL call (a `gl*` function). -/
def Call.isGL : Call → Bool
  | .glViewport _ _ _ _ | .glCreateShader _ _ | .glShaderSource _ _ _ _
  | .glCompileShader _ | .glCreateProgram _ | .glAttachShader _ _ | .glLinkProgram _
  | .glDeleteShader _ | .glGenVertexArrays _ _ | .glGenBuffers _ _ | .glBindVertexArray _
  | .glBindBuffer _ _ | .glBufferData _ _ _ _ | .glVertexAttribPointer _ _ _ _ _ _
  | .glEnableVertexAttribArray _ | .glClearColor _ _ _ _ | .glClear _ | .glUseProgram _
  | .glDrawElements _ _ _ _ | .glDeleteVertexArrays _ _ | .glDeleteBuffers _ _
  | .glDeleteProgram _ => true
  | _ => false

/-- The call is a GLFW call (a `glfw*` function). -/
def Call.isGLFW : Call → Bool
  | .glfwInit | .glfwWindowHint _ _ | .glfwCreateWindow _ _ _ _ _ | .glfwTerminate
  | .glfwMakeContextCurrent _ | .glfwWindowShouldClose _ | .glfwSwapBuffers _
  | .glfwPollEvents | .glfwDestroyWindow _ => true
  | _ => false

/-- The call is the indexed draw call. -/
def Call.isDraw : Call → Bool
  | .glDrawElements _ _ _ _ => true
  | _ => false

/-- The call evaluates the loop condition. -/
def Call.isClosePoll : Call → Bool
  | .glfwWindowShouldClose _ => true
  | _ => false

/-- The call creates the object held by variable `o`. -/
def Call.creates : Call → Obj → Bool
  | .glCreateShader _ result, o => result = o
  | .glCreateProgram result, o => result = o
  | .glGenVertexArrays _ arrays, o => arrays = o
  | .glGenBuffers _ buffers, o => buffers = o
  | _, _ => false

/-- The call deletes the object held by variable `o`. -/
def Call.deletes : Call → Obj → Bool
  | .glDeleteShader shader, o => shader = o
  | .glDeleteVertexArrays _ arrays, o => arrays = o
  | .glDeleteBuffers _ buffers, o => buffers = o
  | .glDeleteProgram program, o => program = o
  | _, _ => false

/-- The call has variable `o` among its arguments. -/
def Call.names : Call → Obj → Bool
  | .glCreateShader _ result, o => result = o
  | .glShaderSource shader _ _ _, o => shader = o
  | .glCompileShader shader, o => shader = o
  | .glCreateProgram result, o => result = o
  | .glAttachShader program shader, o => program = o || shader = o
  | .glLinkProgram program, o => program = o
  | .glDeleteShader shader, o => shader = o
  | .glGenVertexArrays _ arrays, o => arrays = o
  | .glGenBuffers _ buffers, o => buffers = o
  | .glBindVertexArray array, o => array = some o
  | .glBindBuffer _ buffer, o => buffer = some o
  | .glUseProgram program, o => program = some o
  | .glDeleteVertexArrays _ arrays, o => arrays = o
  | .glDeleteBuffers _ buffers, o => buffers = o
  | .glDeleteProgram program, o => program = o
  | _, _ => false

/-- The call reads or writes objects through the current bindings without naming them:
uploads, attribute set-up and draws. -/
def Call.usesBindings : Call → Bool
  | .glBufferData _ _ _ _ | .glVertexAttribPointer _ _ _ _ _ _
  | .glEnableVertexAttribArray _ | .glDrawElements _ _ _ _ => true
  | _ => false

/-- The call creates, deletes or writes a buffer, shader, program or vertex array. -/
def Call.changesObjects : Call → Bool
  | .glCreateShader _ _ | .glShaderSource _ _ _ _ | .glCompileShader _
  | .glCreateProgram _ | .glAttachShader _ _ | .glLinkProgram _ | .glDeleteShader _
  | .glGenVertexArrays _ _ | .glGenBuffers _ _ | .glBufferData _ _ _ _
  | .glVertexAttribPointer _ _ _ _ _ _ | .glEnableVertexAttribArray _
  | .glBindBuffer .GL_ELEMENT_ARRAY_BUFFER _
  | .glDeleteVertexArrays _ _ | .glDeleteBuffers _ _ | .glDeleteProgram _ => true
  | _ => false

/-! ## A model of the OpenGL binding state -/

/-- One generic vertex attribute of a vertex array object. -/
structure VertexAttrib where
  enabled : Bool
  /-- The buffer bound to GL_ARRAY_BUFFER when glVertexAttribPointer was called. -/
  buffer : Option Obj
  size : Nat
  type : GLenum
  normalized : Bool
  stride : Nat
  pointer : Nat

/-- The state of one vertex array object. -/
structure VertexArrayState where
  elementArrayBuffer : Option Obj
  attrib : Nat → VertexAttrib

/-- The data store of a buffer object, as set by glBufferData. -/
structure BufferStore where
  size : Nat
  data : HostPtr
  usage : GLenum
  deriving DecidableEq

/-- The binding state of the context.  Vertex arrays are keyed by the variable that holds
their name, `none` being the name 0. -/
structure GLState where
  currentProgram : Option Obj
  vertexArrayBinding : Option Obj
  arrayBufferBinding : Option Obj
  vertexArray : Option Obj → VertexArrayState
  bufferStore : Obj → Option BufferStore

/-- The initial value of a vertex attribute. -/
def VertexAttrib.initial : VertexAttrib :=
  { enabled := false, buffer := none, size := 4, type := .GL_FLOAT, normalized := false,
    stride := 0, pointer := 0 }

/-- The state of a fresh vertex array object. -/
def VertexArrayState.initial : VertexArrayState :=
  { elementArrayBuffer := none, attrib := fun _ => VertexAttrib.initial }

/-- The state of a fresh context: nothing bound, no data stores. -/
def GLState.initial : GLState :=
  { currentProgram := none, vertexArrayBinding := none, arrayBufferBinding := none,
    vertexArray := fun _ => VertexArrayState.initial, bufferStore := fun _ => none }

/-- The function `f` changed at `key` to `value`. -/
def setAt {α β : Type} [DecidableEq α] (f : α → β) (key : α) (value : β) : α → β :=
  fun k => if k = key then value else f k

/-- The buffer a buffer target refers to: GL_ARRAY_BUFFER is context state,
GL_ELEMENT_ARRAY_BUFFER is state of the bound vertex array. -/
def GLState.boundBuffer (st : GLState) (target : GLenum) : Option Obj :=
  if target = .GL_ARRAY_BUFFER then st.arrayBufferBinding
  else if target = .GL_ELEMENT_ARRAY_BUFFER then
    (st.vertexArray st.vertexArrayBinding).elementArrayBuffer
  else none

/-- The vertex array state `va` with its element array buffer binding replaced. -/
def VertexArrayState.setElementArrayBuffer (va : VertexArrayState) (buffer : Option Obj) :
    VertexArrayState :=
  { va with elementArrayBuffer := buffer }

/-- The vertex array state `va` with attribute `index` replaced. -/
def VertexArrayState.setAttrib (va : VertexArrayState) (index : Nat) (a : VertexAttrib) :
    VertexArrayState :=
  { va with attrib := setAt va.attrib index a }

/-- The state `st` with the bound vertex array replaced by `va`. -/
def GLState.setBoundVertexArray (st : GLState) (va : VertexArrayState) : GLState :=
  { st with vertexArray := setAt st.vertexArray st.vertexArrayBinding va }

/-- The effect of one call on the binding state. -/
def GLState.step (st : GLState) : Call → GLState
  | .glUseProgram program => { st with currentProgram := program }
  | .glBindVertexArray array => { st with vertexArrayBinding := array }
  | .glBindBuffer target buffer =>
    if target = .GL_ARRAY_BUFFER then { st with arrayBufferBinding := buffer }
    else if target = .GL_ELEMENT_ARRAY_BUFFER then
      st.setBoundVertexArray
        ((st.vertexArray st.vertexArrayBinding).setElementArrayBuffer buffer)
    else st
  | .glBufferData target size data usage =>
    match st.boundBuffer target with
    | some b => { st with bufferStore := setAt st.bufferStore b (some ⟨size, data, usage⟩) }
    | none => st
  | .glVertexAttribPointer index size type normalized stride pointer =>
    st.setBoundVertexArray
      ((st.vertexArray st.vertexArrayBinding).setAttrib index
        { enabled := ((st.vertexArray st.vertexArrayBinding).attrib index).enabled,
          buffer := st.arrayBufferBinding, size := size, type := type,
          normalized := normalized, stride := stride, pointer := pointer })
  | .glEnableVertexAttribArray index =>
    st.setBoundVertexArray
      ((st.vertexArray st.vertexArrayBinding).setAttrib index
        { (st.vertexArray st.vertexArrayBinding).attrib index with enabled := true })
  | .glDeleteVertexArrays _ arrays =>
    { st with
      vertexArrayBinding :=
        if st.vertexArrayBinding = some arrays then none else st.vertexArrayBinding,
      vertexArray := setAt st.vertexArray (some arrays) VertexArrayState.initial }
  | .glDeleteBuffers _ buffers =>
    { st.setBoundVertexArray
        ((st.vertexArray st.vertexArrayBinding).setElementArrayBuffer
          (if (st.vertexArray st.vertexArrayBinding).elementArrayBuffer = some buffers
            then none else (st.vertexArray st.vertexArrayBinding).elementArrayBuffer)) with
      arrayBufferBinding :=
        if st.arrayBufferBinding = some buffers then none else st.arrayBufferBinding,
      bufferStore := setAt st.bufferStore buffers none }
  | _ => st

/-- The binding state after a list of calls. -/
def GLState.run (st : GLState) (calls : List Call) : GLState :=
  calls.foldl GLState.step st

/-- The buffers written by the glBufferData calls of a list of calls, in order: each is the
buffer bound to the target of the call at the time of the call. -/
def bufferWrites (st : GLState) : List Call → List (Option Obj)
  | [] => []
  | .glBufferData target size data usage :: rest =>
    st.boundBuffer target :: bufferWrites (st.step (.glBufferData target size data usage)) rest
  | c :: rest => bufferWrites (st.step c) rest

/-! ## Sample runs -/

/-- A run in which the window is created and asks to close at the third poll. -/
def sampleEnv : Env :=
  { glfwCreateWindow := 1,
    glfwWindowShouldClose := fun k => decide (2 ≤ k),
    objectName := fun o =>
      match o with
      | .vertexShader => 1 | .fragmentShader => 2 | .shaderProgram => 3
      | .VAO => 1 | .VBO => 1 | .EBO => 2,
    compileStatus := fun _ => true,
    linkStatus := true }

/-- A run in which glfwCreateWindow returns nullptr. -/
def noWindowEnv : Env :=
  { glfwCreateWindow := nullptr,
    glfwWindowShouldClose := fun _ => false,
    objectName := fun _ => 0,
    compileStatus := fun _ => false,
    linkStatus := false }

/-- The calls of the run of `main` in `sampleEnv`: two frames. -/
def sampleTrace : List Call :=
  windowCalls ++ setupCalls 1 ++ (iterations 1 2 ++ [Call.glfwWindowShouldClose 1]) ++
    teardownCalls 1

/-! ## Auxiliary definitions for the proofs -/

/-- Every draw call of `calls`, started in state `st`, is issued in a state satisfying `P`. -/
def DrawsIn (P : GLState → Prop) : GLState → List Call → Prop
  | _, [] => True
  | st, c :: rest => (c.isDraw = true → P st) ∧ DrawsIn P (st.step c) rest

/-- The part of the state set up once and needed by every draw: the element buffer binding
and attribute 0 of VAO, and the data stores of EBO and VBO. -/
def GLState.GeometrySetUp (st : GLState) : Prop :=
  (st.vertexArray (some .VAO)).elementArrayBuffer = some .EBO ∧
  st.bufferStore .EBO = some ⟨sizeof_indices, .indices, .GL_STATIC_DRAW⟩ ∧
  st.bufferStore .VBO = some ⟨sizeof_vertices, .vertices, .GL_STATIC_DRAW⟩ ∧
  ((st.vertexArray (some .VAO)).attrib 0).enabled = true ∧
  ((st.vertexArray (some .VAO)).attrib 0).buffer = some .VBO ∧
  ((st.vertexArray (some .VAO)).attrib 0).size = 3 ∧
  ((st.vertexArray (some .VAO)).attrib 0).type = .GL_FLOAT ∧
  ((st.vertexArray (some .VAO)).attrib 0).normalized = false ∧
  ((st.vertexArray (some .VAO)).attrib 0).stride = 12 ∧
  ((st.vertexArray (some .VAO)).attrib 0).pointer = 0

/-- The state in which a draw call finds the program, the vertex array and the geometry. -/
def GLState.ReadyToDraw (st : GLState) : Prop :=
  st.currentProgram = some .shaderProgram ∧ st.vertexArrayBinding = some .VAO ∧
  st.GeometrySetUp

/-- The call is glBufferData. -/
def Call.isUpload : Call → Bool
  | .glBufferData _ _ _ _ => true
  | _ => false

/-- The six object variables. -/
def allObjs : List Obj :=
  [.vertexShader, .fragmentShader, .shaderProgram, .VAO, .VBO, .EBO]

/-- The four objects deleted in the teardown. -/
def teardownObjs : List Obj := [.VAO, .VBO, .EBO, .shaderProgram]

/-- The call is glfwTerminate. -/
def Call.isTerminate : Call → Bool
  | .glfwTerminate => true
  | _ => false

/-- Boolean form of the ordering constraint between an earlier call `a` and a later
call `b`: what `a` deletes, `b` does not name; after the second glDeleteShader, `b` names
neither shader; after glDeleteProgram, the last teardown delete, `b` names none of the four
teardown objects; after a teardown delete, `b` does not use the bindings; after
glfwTerminate, `b` is neither a GLFW nor an OpenGL call. -/
def laterCallOk (a b : Call) : Bool :=
  allObjs.all (fun o => !a.deletes o || !b.names o) &&
  (!a.deletes .fragmentShader || (!b.names .vertexShader && !b.names .fragmentShader)) &&
  (!a.deletes .shaderProgram || teardownObjs.all (fun o => !b.names o)) &&
  teardownObjs.all (fun o => !a.deletes o || !b.usesBindings) &&
  (!a.isTerminate || (!b.isGLFW && !b.isGL))

/-- Boolean check that every pair of an element of `l1` and an element of `l2` satisfies `r`. -/
def allPairs (r : Call → Call → Bool) (l1 l2 : List Call) : Bool :=
  l1.all (fun a => l2.all (fun b => r a b))

/-- Boolean check that every element of `l` satisfies `r` with every later element. -/
def pairwiseCheck (r : Call → Call → Bool) : List Call → Bool
  | [] => true
  | a :: rest => rest.all (fun b => r a b) && pairwiseCheck r rest

/-! ## Facts about the mesh -/

theorem triangles_indices : triangles indices = [(0, 3, 5), (3, 2, 4), (5, 4, 1)] := rfl

theorem position_0 (s : ℝ) : position (vertices s) 0 = (-(1/2), -(s/6)) := by
  simp [position, vertices]; constructor <;> norm_num; ring

theorem position_1 (s : ℝ) : position (vertices s) 1 = (1/2, -(s/6)) := by
  simp [position, vertices]; constructor <;> norm_num; ring

theorem position_2 (s : ℝ) : position (vertices s) 2 = (0, s/3) := by
  simp [position, vertices]; norm_num; ring

theorem position_3 (s : ℝ) : position (vertices s) 3 = (-(1/4), s/12) := by
  simp [position, vertices]; constructor <;> norm_num; ring

theorem position_4 (s : ℝ) : position (vertices s) 4 = (1/4, s/12) := by
  simp [position, vertices]; constructor <;> norm_num; ring

theorem position_5 (s : ℝ) : position (vertices s) 5 = (0, -(s/6)) := by
  simp [position, vertices]; norm_num; ring

theorem large_subdivided (s : ℝ) (p : ℝ × ℝ) :
    InTri (vertices s) (0, 1, 2) p ↔
      (InTri (vertices s) (0, 3, 5) p ∨ InTri (vertices s) (3, 2, 4) p ∨
        InTri (vertices s) (5, 4, 1) p) ∨ InTri (vertices s) (3, 4, 5) p := by
  simp only [InTri, InTriangle, position_0, position_1, position_2, position_3, position_4,
    position_5]
  constructor
  · rintro ⟨u, v, w, hu, hv, hw, hsum, hx, hy⟩
    have hs : u * s + v * s + w * s = s := by rw [← add_mul, ← add_mul, hsum, one_mul]
    by_cases h0 : 1 / 2 ≤ u
    · refine Or.inl (Or.inl ⟨2 * u - 1, 2 * w, 2 * v, by linarith, by linarith, by linarith,
        by linarith, by linarith, by linarith⟩)
    by_cases h1 : 1 / 2 ≤ v
    · refine Or.inl (Or.inr (Or.inr ⟨2 * u, 2 * w, 2 * v - 1, by linarith, by linarith,
        by linarith, by linarith, by linarith, by linarith⟩))
    by_cases h2 : 1 / 2 ≤ w
    · refine Or.inl (Or.inr (Or.inl ⟨2 * u, 2 * w - 1, 2 * v, by linarith, by linarith,
        by linarith, by linarith, by linarith, by linarith⟩))
    · refine Or.inr ⟨1 - 2 * v, 1 - 2 * u, 1 - 2 * w, by linarith, by linarith,
        by linarith, by linarith, by linarith, by linarith⟩
  · rintro ((⟨u, v, w, hu, hv, hw, hsum, hx, hy⟩ | ⟨u, v, w, hu, hv, hw, hsum, hx, hy⟩ |
      ⟨u, v, w, hu, hv, hw, hsum, hx, hy⟩) | ⟨u, v, w, hu, hv, hw, hsum, hx, hy⟩)
    · exact ⟨u + v / 2 + w / 2, w / 2, v / 2, by linarith, by linarith, by linarith,
        by linarith, by linarith, by linarith⟩
    · exact ⟨u / 2, w / 2, u / 2 + v + w / 2, by linarith, by linarith, by linarith,
        by linarith, by linarith, by linarith⟩
    · exact ⟨u / 2, u / 2 + v / 2 + w, v / 2, by linarith, by linarith, by linarith,
        by linarith, by linarith, by linarith⟩
    · exact ⟨u / 2 + w / 2, v / 2 + w / 2, u / 2 + v / 2, by linarith, by linarith, by linarith,
        by linarith, by linarith, by linarith⟩

theorem centroid_not_indexed (s : ℝ) (hs : 0 < s) (t : Nat × Nat × Nat)
    (ht : t ∈ triangles indices) : ¬ InTri (vertices s) t (0, 0) := by
  rw [triangles_indices] at ht
  simp only [List.mem_cons, List.mem_singleton, List.not_mem_nil, or_false] at ht
  rcases ht with rfl | rfl | rfl <;>
    simp only [InTri, InTriangle, position_0, position_1, position_2, position_3, position_4,
      position_5] <;>
    rintro ⟨u, v, w, hu, hv, hw, hsum, hx, hy⟩ <;>
    have h1 : u * s + v * s + w * s = s := by rw [← add_mul, ← add_mul, hsum, one_mul]
  · have hu0 : u = 0 := by linarith
    have hv0 : v = 0 := by linarith
    subst hu0 hv0
    linarith
  · linarith [mul_nonneg hu hs.le, mul_nonneg hv hs.le, mul_nonneg hw hs.le]
  · have hv0 : v = 0 := by linarith
    have hw0 : w = 0 := by linarith
    subst hv0 hw0
    linarith

theorem interiors_disjoint (s : ℝ) (hs : 0 < s) (p : ℝ × ℝ) :
    ¬ (InTriInterior (vertices s) (0, 3, 5) p ∧ InTriInterior (vertices s) (3, 2, 4) p) ∧
    ¬ (InTriInterior (vertices s) (0, 3, 5) p ∧ InTriInterior (vertices s) (5, 4, 1) p) ∧
    ¬ (InTriInterior (vertices s) (3, 2, 4) p ∧ InTriInterior (vertices s) (5, 4, 1) p) := by
  simp only [InTriInterior, InInterior, position_0, position_1, position_2, position_3,
    position_4, position_5]
  refine ⟨?_, ?_, ?_⟩ <;>
    rintro ⟨⟨u, v, w, hu, hv, hw, hsum, hx, hy⟩, ⟨a, b, c, ha, hb, hc, habc, hx', hy'⟩⟩
  · have h1 : u * s + v * s + w * s = s := by rw [← add_mul, ← add_mul, hsum, one_mul]
    have h2 : a * s + b * s + c * s = s := by rw [← add_mul, ← add_mul, habc, one_mul]
    linarith [mul_pos hu hs, mul_pos hv hs, mul_pos hw hs, mul_pos ha hs, mul_pos hb hs,
      mul_pos hc hs]
  · linarith
  · have h1 : u * s + v * s + w * s = s := by rw [← add_mul, ← add_mul, hsum, one_mul]
    have h2 : a * s + b * s + c * s = s := by rw [← add_mul, ← add_mul, habc, one_mul]
    linarith [mul_pos hu hs, mul_pos hv hs, mul_pos hw hs, mul_pos ha hs, mul_pos hb hs,
      mul_pos hc hs]

theorem triSignedArea2_values (s : ℝ) :
    triSignedArea2 (vertices s) (0, 1, 2) = s / 2 ∧
    triSignedArea2 (vertices s) (0, 3, 5) = -(s / 8) ∧
    triSignedArea2 (vertices s) (3, 2, 4) = -(s / 8) ∧
    triSignedArea2 (vertices s) (5, 4, 1) = -(s / 8) ∧
    triSignedArea2 (vertices s) (3, 4, 5) = -(s / 8) := by
  simp only [triSignedArea2, signedArea2, position_0, position_1, position_2, position_3,
    position_4, position_5]
  refine ⟨?_, ?_, ?_, ?_, ?_⟩ <;> ring

theorem sqrt3_pos : (0 : ℝ) < Real.sqrt 3 := Real.sqrt_pos.mpr (by norm_num)

theorem centre_interior_not_indexed (s : ℝ) (hs : 0 < s) (p : ℝ × ℝ)
    (hp : InTriInterior (vertices s) (3, 4, 5) p) (t : Nat × Nat × Nat)
    (ht : t ∈ triangles indices) : ¬ InTri (vertices s) t p := by
  rw [triangles_indices] at ht
  simp only [List.mem_cons, List.mem_singleton, List.not_mem_nil, or_false] at ht
  simp only [InTriInterior, InInterior, position_3, position_4, position_5] at hp
  obtain ⟨a, b, c, ha, hb, hc, habc, hx, hy⟩ := hp
  rcases ht with rfl | rfl | rfl <;>
    simp only [InTri, InTriangle, position_0, position_1, position_2, position_3, position_4,
      position_5] <;>
    rintro ⟨u, v, w, hu, hv, hw, hsum, hx2, hy2⟩
  · have h1 : s * (a * (1 / 12) + b * (1 / 12) + c * -(1 / 6))
        = s * (u * -(1 / 6) + v * (1 / 12) + w * -(1 / 6)) := by linarith
    have h2 := mul_left_cancel₀ hs.ne' h1
    linarith
  · have h1 : s * (a * (1 / 12) + b * (1 / 12) + c * -(1 / 6))
        = s * (u * (1 / 12) + v * (1 / 3) + w * (1 / 12)) := by linarith
    have h2 := mul_left_cancel₀ hs.ne' h1
    linarith
  · have h1 : s * (a * (1 / 12) + b * (1 / 12) + c * -(1 / 6))
        = s * (u * -(1 / 6) + v * (1 / 12) + w * -(1 / 6)) := by linarith
    have h2 := mul_left_cancel₀ hs.ne' h1
    linarith

/-! ## The mesh: claims -/

/-- C1 (as stated, refuted): the centre (0, 0) of the large triangle (0,1,2) lies in the
large triangle but in none of the three triangles selected by the index triples, and the
areas of the three indexed triangles do not sum to the area of the large triangle. -/
theorem centre_not_covered :
    InTri (vertices (Real.sqrt 3)) (0, 1, 2) (0, 0) ∧
    (¬ ∃ t ∈ triangles indices, InTri (vertices (Real.sqrt 3)) t (0, 0)) ∧
    ((triangles indices).map
        (fun t => |triSignedArea2 (vertices (Real.sqrt 3)) t| / 2)).sum ≠
      |triSignedArea2 (vertices (Real.sqrt 3)) (0, 1, 2)| / 2 := by
  have hs := sqrt3_pos
  obtain ⟨h0, h1, h2, h3, -⟩ := triSignedArea2_values (Real.sqrt 3)
  refine ⟨?_, ?_, ?_⟩
  · simp only [InTri, InTriangle, position_0, position_1, position_2]
    exact ⟨1 / 3, 1 / 3, 1 / 3, by norm_num, by norm_num, by norm_num, by norm_num,
      by norm_num, by ring⟩
  · rintro ⟨t, ht, hin⟩
    exact centroid_not_indexed (Real.sqrt 3) hs t ht hin
  · simp only [triangles_indices, List.map_cons, List.map_nil, List.sum_cons, List.sum_nil,
      h0, h1, h2, h3, abs_neg]
    rw [abs_of_pos (by positivity : (0 : ℝ) < Real.sqrt 3 / 8),
      abs_of_pos (by positivity : (0 : ℝ) < Real.sqrt 3 / 2)]
    intro h
    linarith

/-- C1 (amended): with exact coordinates, a point lies in the large triangle (0,1,2) exactly
when it lies in one of the three triangles selected by the index triples or in the central
triangle (3,4,5), which no index triple selects; no point of the interior of the central
triangle lies in an indexed triangle; the three indexed triangles have pairwise disjoint
interiors, and their areas sum to three quarters of the area of the large triangle. -/
theorem indexed_triangles_cover_all_but_centre :
    (∀ p : ℝ × ℝ, InTri (vertices (Real.sqrt 3)) (0, 1, 2) p ↔
      ((∃ t ∈ triangles indices, InTri (vertices (Real.sqrt 3)) t p) ∨
        InTri (vertices (Real.sqrt 3)) (3, 4, 5) p)) ∧
    (∀ p : ℝ × ℝ, InTriInterior (vertices (Real.sqrt 3)) (3, 4, 5) p →
      ¬ ∃ t ∈ triangles indices, InTri (vertices (Real.sqrt 3)) t p) ∧
    (triangles indices).Pairwise
      (fun t1 t2 => ∀ p : ℝ × ℝ, ¬ (InTriInterior (vertices (Real.sqrt 3)) t1 p ∧
        InTriInterior (vertices (Real.sqrt 3)) t2 p)) ∧
    ((triangles indices).map
        (fun t => |triSignedArea2 (vertices (Real.sqrt 3)) t| / 2)).sum =
      3 / 4 * (|triSignedArea2 (vertices (Real.sqrt 3)) (0, 1, 2)| / 2) := by
  have hs := sqrt3_pos
  obtain ⟨h0, h1, h2, h3, -⟩ := triSignedArea2_values (Real.sqrt 3)
  refine ⟨?_, ?_, ?_, ?_⟩
  · intro p
    rw [large_subdivided (Real.sqrt 3) p, triangles_indices]
    simp only [List.mem_cons, List.mem_singleton, List.not_mem_nil, or_false,
      exists_eq_or_imp, exists_eq_left]
  · rintro p hp ⟨t, ht, hin⟩
    exact centre_interior_not_indexed (Real.sqrt 3) hs p hp t ht hin
  · rw [triangles_indices]
    simp only [List.pairwise_cons, List.mem_cons, List.mem_singleton, List.not_mem_nil,
      or_false, forall_eq_or_imp, forall_eq, IsEmpty.forall_iff, implies_true,
      List.Pairwise.nil, and_true]
    exact ⟨⟨fun p => (interiors_disjoint _ hs p).1, fun p => (interiors_disjoint _ hs p).2.1⟩,
      fun p => (interiors_disjoint _ hs p).2.2⟩
  · simp only [triangles_indices, List.map_cons, List.map_nil, List.sum_cons, List.sum_nil,
      h0, h1, h2, h3, abs_neg]
    rw [abs_of_pos (by positivity : (0 : ℝ) < Real.sqrt 3 / 8),
      abs_of_pos (by positivity : (0 : ℝ) < Real.sqrt 3 / 2)]
    ring

/-- C2: with exact coordinates, each triangle selected by an index triple has three
pairwise distinct corners and a non-zero signed area. -/
theorem indexed_triangles_nondegenerate (t : Nat × Nat × Nat) (ht : t ∈ triangles indices) :
    position (vertices (Real.sqrt 3)) t.1 ≠ position (vertices (Real.sqrt 3)) t.2.1 ∧
    position (vertices (Real.sqrt 3)) t.2.1 ≠ position (vertices (Real.sqrt 3)) t.2.2 ∧
    position (vertices (Real.sqrt 3)) t.1 ≠ position (vertices (Real.sqrt 3)) t.2.2 ∧
    triSignedArea2 (vertices (Real.sqrt 3)) t ≠ 0 := by
  have hs := sqrt3_pos
  obtain ⟨-, h1, h2, h3, -⟩ := triSignedArea2_values (Real.sqrt 3)
  rw [triangles_indices] at ht
  simp only [List.mem_cons, List.mem_singleton, List.not_mem_nil, or_false] at ht
  rcases ht with rfl | rfl | rfl
  · refine ⟨?_, ?_, ?_, by rw [h1]; exact neg_ne_zero.mpr (by positivity)⟩ <;>
      simp only [position_0, position_3, position_5, ne_eq, Prod.mk.injEq, not_and] <;>
      norm_num
  · refine ⟨?_, ?_, ?_, by rw [h2]; exact neg_ne_zero.mpr (by positivity)⟩ <;>
      simp only [position_2, position_3, position_4, ne_eq, Prod.mk.injEq, not_and] <;>
      norm_num
  · refine ⟨?_, ?_, ?_, by rw [h3]; exact neg_ne_zero.mpr (by positivity)⟩ <;>
      simp only [position_1, position_4, position_5, ne_eq, Prod.mk.injEq, not_and] <;>
      norm_num

/-- C2, at the index triple (3,2,4). -/
theorem indexed_triangles_nondegenerate_witness :
    (3, 2, 4) ∈ triangles indices ∧
    position (vertices (Real.sqrt 3)) 3 ≠ position (vertices (Real.sqrt 3)) 2 ∧
    position (vertices (Real.sqrt 3)) 2 ≠ position (vertices (Real.sqrt 3)) 4 ∧
    position (vertices (Real.sqrt 3)) 3 ≠ position (vertices (Real.sqrt 3)) 4 ∧
    triSignedArea2 (vertices (Real.sqrt 3)) (3, 2, 4) ≠ 0 :=
  ⟨by decide, indexed_triangles_nondegenerate (3, 2, 4) (by decide)⟩

/-- C5: every element of `indices` is smaller than 6, the number of position triples in
`vertices` (18 numbers, three per vertex), so the three numbers of the indexed vertex all
lie inside `vertices`. -/
theorem indices_in_bounds {R : Type} [Field R] (sqrt3 : R) (k : Nat)
    (hk : k < indices.length) :
    indices.length = 9 ∧ (vertices sqrt3).length = 18 ∧ (vertices sqrt3).length / 3 = 6 ∧
    indices[k] < (vertices sqrt3).length / 3 ∧
    3 * indices[k] + 2 < (vertices sqrt3).length := by
  have h9 : indices.length = 9 := rfl
  have h18 : (vertices sqrt3).length = 18 := rfl
  refine ⟨h9, h18, by rw [h18], ?_, ?_⟩
  · rw [h18]
    rw [h9] at hk
    interval_cases k <;> simp [indices]
  · rw [h18]
    rw [h9] at hk
    interval_cases k <;> simp [indices]

/-- C5, at the last position of `indices`, with exact coordinates. -/
theorem indices_in_bounds_witness :
    8 < indices.length ∧ indices.length = 9 ∧ (vertices (Real.sqrt 3)).length = 18 ∧
    (vertices (Real.sqrt 3)).length / 3 = 6 ∧
    indices[8] < (vertices (Real.sqrt 3)).length / 3 ∧
    3 * indices[8] + 2 < (vertices (Real.sqrt 3)).length :=
  ⟨by decide, indices_in_bounds (Real.sqrt 3) 8 (by decide)⟩

theorem renderLoop_eq (env : Env) (w : WindowPtr) (n : Nat) :
    ∀ (fuel polls : Nat), n < fuel →
      (∀ j, j < n → env.glfwWindowShouldClose (polls + j) = false) →
      env.glfwWindowShouldClose (polls + n) = true →
      renderLoop env w fuel polls = (iterations w n ++ [.glfwWindowShouldClose w], true) := by
  induction n with
  | zero =>
    intro fuel polls hf _ hn
    obtain ⟨f, rfl⟩ : ∃ f, fuel = f + 1 := ⟨fuel - 1, by omega⟩
    simp only [Nat.add_zero] at hn
    simp [renderLoop, hn, iterations]
  | succ n ih =>
    intro fuel polls hf hlt hn
    obtain ⟨f, rfl⟩ : ∃ f, fuel = f + 1 := ⟨fuel - 1, by omega⟩
    have h0 : env.glfwWindowShouldClose polls = false := by simpa using hlt 0 (by omega)
    have h1 := ih f (polls + 1) (by omega)
      (fun j hj => by
        have h2 := hlt (j + 1) (by omega)
        rwa [show polls + 1 + j = polls + (j + 1) by omega])
      (by rwa [show polls + 1 + n = polls + (n + 1) by omega])
    simp [renderLoop, h0, h1, iterations]

theorem renderLoop_open (env : Env) (w : WindowPtr) :
    ∀ (fuel polls : Nat),
      (∀ j, j < fuel → env.glfwWindowShouldClose (polls + j) = false) →
      renderLoop env w fuel polls = (iterations w fuel, false) := by
  intro fuel
  induction fuel with
  | zero => intro polls _; rfl
  | succ f ih =>
    intro polls hlt
    have h0 : env.glfwWindowShouldClose polls = false := by simpa using hlt 0 (by omega)
    have h1 := ih (polls + 1) (fun j hj => by
      have h2 := hlt (j + 1) (by omega)
      rwa [show polls + 1 + j = polls + (j + 1) by omega])
    simp [renderLoop, h0, h1, iterations]

theorem first_close (f : Nat → Bool) (fuel : Nat) :
    (∀ j, j < fuel → f j = false) ∨
    ∃ n, n < fuel ∧ (∀ j, j < n → f j = false) ∧ f n = true := by
  induction fuel with
  | zero => exact Or.inl (fun j hj => absurd hj (Nat.not_lt_zero j))
  | succ m ih =>
    rcases ih with h | ⟨n, hn, hlt, hcl⟩
    · cases hm : f m with
      | true => exact Or.inr ⟨m, Nat.lt_succ_self m, h, hm⟩
      | false =>
        refine Or.inl (fun j hj => ?_)
        rcases Nat.lt_succ_iff_lt_or_eq.mp hj with h1 | h1
        · exact h j h1
        · rw [h1]; exact hm
    · exact Or.inr ⟨n, Nat.lt_succ_of_lt hn, hlt, hcl⟩

theorem main_of_no_window (env : Env) (fuel : Nat) (h : env.glfwCreateWindow = nullptr) :
    main env fuel = (windowCalls ++ failureCalls, some (-1)) := by
  simp [main, h]

theorem main_of_close (env : Env) (n fuel : Nat) (h : env.glfwCreateWindow ≠ nullptr)
    (hopen : ∀ j, j < n → env.glfwWindowShouldClose j = false)
    (hclose : env.glfwWindowShouldClose n = true) (hfuel : n < fuel) :
    main env fuel = (windowCalls ++ setupCalls env.glfwCreateWindow ++
        (iterations env.glfwCreateWindow n ++
          [.glfwWindowShouldClose env.glfwCreateWindow]) ++
        teardownCalls env.glfwCreateWindow, some 0) := by
  have hloop := renderLoop_eq env env.glfwCreateWindow n fuel 0 hfuel
    (fun j hj => by simpa using hopen j hj) (by simpa using hclose)
  simp [main, h, hloop]

theorem main_of_open (env : Env) (fuel : Nat) (h : env.glfwCreateWindow ≠ nullptr)
    (hopen : ∀ j, j < fuel → env.glfwWindowShouldClose j = false) :
    main env fuel = (windowCalls ++ setupCalls env.glfwCreateWindow ++
        iterations env.glfwCreateWindow fuel, none) := by
  have hloop := renderLoop_open env env.glfwCreateWindow fuel 0
    (fun j hj => by simpa using hopen j hj)
  simp [main, h, hloop]

theorem main_shape (env : Env) (fuel : Nat) :
    main env fuel = (windowCalls ++ failureCalls, some (-1)) ∨
    (∃ n, main env fuel = (windowCalls ++ setupCalls env.glfwCreateWindow ++
        (iterations env.glfwCreateWindow n ++
          [.glfwWindowShouldClose env.glfwCreateWindow]) ++
        teardownCalls env.glfwCreateWindow, some 0)) ∨
    main env fuel = (windowCalls ++ setupCalls env.glfwCreateWindow ++
        iterations env.glfwCreateWindow fuel, none) := by
  by_cases h : env.glfwCreateWindow = nullptr
  · exact Or.inl (main_of_no_window env fuel h)
  · rcases first_close env.glfwWindowShouldClose fuel with hopen | ⟨n, hn, hopen, hclose⟩
    · exact Or.inr (Or.inr (main_of_open env fuel h hopen))
    · exact Or.inr (Or.inl ⟨n, main_of_close env n fuel h hopen hclose hn⟩)

theorem mem_iterations (w : WindowPtr) (n : Nat) (c : Call) (h : c ∈ iterations w n) :
    c ∈ Call.glfwWindowShouldClose w :: frameCalls w := by
  induction n with
  | zero => simp [iterations] at h
  | succ n ih =>
    rw [iterations, List.mem_append] at h
    rcases h with h | h
    · exact h
    · exact ih h

theorem iterations_eq_flatten (w : WindowPtr) (n : Nat) :
    iterations w n =
      (List.replicate n (Call.glfwWindowShouldClose w :: frameCalls w)).flatten := by
  induction n with
  | zero => rfl
  | succ n ih => simp [iterations, List.replicate_succ, ih]

theorem countP_iterations (w : WindowPtr) (p : Call → Bool) (n : Nat) :
    (iterations w n).countP p
      = n * (Call.glfwWindowShouldClose w :: frameCalls w).countP p := by
  induction n with
  | zero => simp [iterations]
  | succ n ih =>
    rw [iterations, List.countP_append, ih]
    ring

theorem sample_run : main sampleEnv 3 = (sampleTrace, some 0) := by
  decide

theorem drawsIn_of_no_draw (P : GLState → Prop) (l : List Call) :
    ∀ st : GLState, (∀ c ∈ l, c.isDraw = false) → DrawsIn P st l := by
  induction l with
  | nil => intro st _; trivial
  | cons c rest ih =>
    intro st h
    refine ⟨fun hc => ?_, ih _ (fun d hd => h d (List.mem_cons_of_mem _ hd))⟩
    rw [h c (List.mem_cons_self _ _)] at hc
    exact absurd hc (by decide)

theorem drawsIn_append (P : GLState → Prop) (l1 l2 : List Call) :
    ∀ st : GLState, DrawsIn P st l1 → DrawsIn P (st.run l1) l2 → DrawsIn P st (l1 ++ l2) := by
  induction l1 with
  | nil => intro st _ h; exact h
  | cons c rest ih =>
    intro st h1 h2
    exact ⟨h1.1, ih _ h1.2 h2⟩

theorem drawsIn_split (P : GLState → Prop) (before : List Call) (c : Call)
    (after : List Call) (hdraw : c.isDraw = true) :
    ∀ st : GLState, DrawsIn P st (before ++ c :: after) → P (st.run before) := by
  induction before with
  | nil => intro st h; exact h.1 hdraw
  | cons b rest ih => intro st h; exact ih _ h.2

theorem run_append (st : GLState) (l1 l2 : List Call) :
    st.run (l1 ++ l2) = (st.run l1).run l2 := by
  simp [GLState.run, List.foldl_append]

theorem pairwise_of_check (r : Call → Call → Bool) (l : List Call)
    (h : pairwiseCheck r l = true) : l.Pairwise (fun a b => r a b = true) := by
  induction l with
  | nil => exact List.Pairwise.nil
  | cons a rest ih =>
    simp only [pairwiseCheck, Bool.and_eq_true, List.all_eq_true] at h
    exact List.Pairwise.cons h.1 (ih h.2)

theorem forall_of_allPairs (r : Call → Call → Bool) (l1 l2 : List Call)
    (h : allPairs r l1 l2 = true) : ∀ a ∈ l1, ∀ b ∈ l2, r a b = true := by
  simp only [allPairs, List.all_eq_true] at h
  exact h

theorem laterCallOk_of_quiet (a b : Call) (hd : ∀ o, a.deletes o = false)
    (ht : a.isTerminate = false) : laterCallOk a b = true := by
  simp [laterCallOk, hd, ht]

theorem laterCallOk_spec (a b : Call) (h : laterCallOk a b = true) :
    (∀ o, a.deletes o = true → b.names o = false) ∧
    (a.deletes .fragmentShader = true →
      b.names .vertexShader = false ∧ b.names .fragmentShader = false) ∧
    (a.deletes .shaderProgram = true → ∀ o, o ∈ teardownObjs → b.names o = false) ∧
    (∀ o, o ∈ teardownObjs → a.deletes o = true → b.usesBindings = false) ∧
    (a = .glfwTerminate → b.isGLFW = false ∧ b.isGL = false) := by
  simp only [laterCallOk, Bool.and_eq_true, List.all_eq_true, Bool.or_eq_true,
    Bool.not_eq_true'] at h
  obtain ⟨⟨⟨⟨h1, h2⟩, h3⟩, h4⟩, h5⟩ := h
  refine ⟨?_, ?_, ?_, ?_, ?_⟩
  · intro o ho
    have hmem : o ∈ allObjs := by cases o <;> simp [allObjs]
    rcases h1 o hmem with h | h
    · rw [h] at ho; exact absurd ho (by decide)
    · exact h
  · intro ha
    rcases h2 with h | h
    · rw [h] at ha; exact absurd ha (by decide)
    · exact h
  · intro ha o hmem
    rcases h3 with h | h
    · rw [h] at ha; exact absurd ha (by decide)
    · exact h o hmem
  · intro o hmem ho
    rcases h4 o hmem with h | h
    · rw [h] at ho; exact absurd ho (by decide)
    · exact h
  · intro ha
    subst ha
    simpa [Call.isTerminate] using h5

theorem complete_laterCallOk (w : WindowPtr) (n : Nat) :
    (windowCalls ++ setupCalls w ++ (iterations w n ++ [Call.glfwWindowShouldClose w]) ++
      teardownCalls w).Pairwise (fun a b => laterCallOk a b = true) := by
  have hquiet : ∀ a ∈ iterations w n ++ [Call.glfwWindowShouldClose w],
      ∀ b, laterCallOk a b = true := by
    intro a ha b
    have ha2 : a ∈ Call.glfwWindowShouldClose w :: frameCalls w := by
      rcases List.mem_append.mp ha with h | h
      · exact mem_iterations _ _ _ h
      · rw [List.mem_singleton.mp h]; exact List.mem_cons_self _ _
    simp only [frameCalls, List.mem_cons, List.mem_singleton, List.not_mem_nil,
      or_false] at ha2
    apply laterCallOk_of_quiet
    · intro o
      rcases ha2 with rfl | rfl | rfl | rfl | rfl | rfl | rfl | rfl <;> rfl
    · rcases ha2 with rfl | rfl | rfl | rfl | rfl | rfl | rfl | rfl <;> rfl
  have hA : (windowCalls ++ setupCalls w).Pairwise
      (fun a b => laterCallOk a b = true) := pairwise_of_check _ _ rfl
  have hT : (teardownCalls w).Pairwise
      (fun a b => laterCallOk a b = true) := pairwise_of_check _ _ rfl
  have hAL : ∀ a ∈ windowCalls ++ setupCalls w,
      ∀ b ∈ Call.glfwWindowShouldClose w :: frameCalls w, laterCallOk a b = true :=
    forall_of_allPairs _ _ _ rfl
  have hAT : ∀ a ∈ windowCalls ++ setupCalls w,
      ∀ b ∈ teardownCalls w, laterCallOk a b = true :=
    forall_of_allPairs _ _ _ rfl
  refine List.pairwise_append.mpr ⟨List.pairwise_append.mpr ⟨hA, ?_, ?_⟩, hT, ?_⟩
  · exact List.pairwise_of_forall_mem_list (fun a ha b _ => hquiet a ha b)
  · intro a ha b hb
    apply hAL a ha
    rcases List.mem_append.mp hb with h | h
    · exact mem_iterations _ _ _ h
    · rw [List.mem_singleton.mp h]; exact List.mem_cons_self _ _
  · intro a ha b hb
    rcases List.mem_append.mp ha with h | h
    · exact hAT a h b hb
    · exact hquiet a h b

theorem running_sublist (w : WindowPtr) (n : Nat) :
    List.Sublist (windowCalls ++ setupCalls w ++ iterations w n)
      (windowCalls ++ setupCalls w ++ (iterations w n ++ [Call.glfwWindowShouldClose w]) ++
        teardownCalls w) :=
  ((List.sublist_append_left (iterations w n) [Call.glfwWindowShouldClose w]).append_left
    (windowCalls ++ setupCalls w)).trans (List.sublist_append_left _ (teardownCalls w))

theorem trace_laterCallOk (env : Env) (fuel : Nat) :
    (main env fuel).1.Pairwise (fun a b => laterCallOk a b = true) := by
  rcases main_shape env fuel with h | ⟨n, h⟩ | h
  · rw [h]
    exact pairwise_of_check _ _ (by decide)
  · rw [h]
    exact complete_laterCallOk _ n
  · rw [h]
    exact (complete_laterCallOk _ fuel).sublist (running_sublist _ fuel)

theorem setup_geometry (w : WindowPtr) :
    (GLState.initial.run (windowCalls ++ setupCalls w)).GeometrySetUp :=
  ⟨rfl, rfl, rfl, rfl, rfl, rfl, rfl, rfl, rfl, rfl⟩

theorem frame_draws (w : WindowPtr) (st : GLState) (h : st.GeometrySetUp) :
    DrawsIn GLState.ReadyToDraw st (Call.glfwWindowShouldClose w :: frameCalls w) ∧
    (st.run (Call.glfwWindowShouldClose w :: frameCalls w)).GeometrySetUp := by
  refine ⟨?_, h⟩
  simp only [frameCalls, DrawsIn, Call.isDraw, false_implies, true_and, and_true,
    forall_const, Bool.false_eq_true]
  exact ⟨rfl, rfl, h⟩

theorem iterations_draws (w : WindowPtr) (n : Nat) :
    ∀ st : GLState, st.GeometrySetUp →
      DrawsIn GLState.ReadyToDraw st (iterations w n) ∧
      (st.run (iterations w n)).GeometrySetUp := by
  induction n with
  | zero => intro st h; exact ⟨trivial, h⟩
  | succ n ih =>
    intro st h
    obtain ⟨h1, h2⟩ := frame_draws w st h
    obtain ⟨h3, h4⟩ := ih _ h2
    rw [iterations, run_append]
    exact ⟨drawsIn_append _ _ _ _ h1 h3, h4⟩

theorem complete_draws (w : WindowPtr) (n : Nat) :
    DrawsIn GLState.ReadyToDraw GLState.initial
      (windowCalls ++ setupCalls w ++ iterations w n ++
        ([Call.glfwWindowShouldClose w] ++ teardownCalls w)) := by
  have hA : ∀ c ∈ windowCalls ++ setupCalls w, c.isDraw = false := by
    have hall : (windowCalls ++ setupCalls w).all (fun c => !c.isDraw) = true := rfl
    intro c hc
    simpa using List.all_eq_true.mp hall c hc
  have hT : ∀ c ∈ [Call.glfwWindowShouldClose w] ++ teardownCalls w, c.isDraw = false := by
    have hall : ([Call.glfwWindowShouldClose w] ++ teardownCalls w).all
        (fun c => !c.isDraw) = true := rfl
    intro c hc
    simpa using List.all_eq_true.mp hall c hc
  obtain ⟨h1, -⟩ := iterations_draws w n _ (setup_geometry w)
  refine drawsIn_append _ _ _ _ ?_ (drawsIn_of_no_draw _ _ _ hT)
  exact drawsIn_append _ _ _ _ (drawsIn_of_no_draw _ _ _ hA) h1

theorem drawsIn_left (P : GLState → Prop) (l1 l2 : List Call) :
    ∀ st : GLState, DrawsIn P st (l1 ++ l2) → DrawsIn P st l1 := by
  induction l1 with
  | nil => intro st _; trivial
  | cons c rest ih => intro st h; exact ⟨h.1, ih _ h.2⟩

theorem trace_draws (env : Env) (fuel : Nat) :
    DrawsIn GLState.ReadyToDraw GLState.initial (main env fuel).1 := by
  rcases main_shape env fuel with h | ⟨n, h⟩ | h
  · rw [h]
    exact drawsIn_of_no_draw _ _ _ (by decide)
  · rw [h]
    have h1 := complete_draws env.glfwCreateWindow n
    simp only [List.append_assoc] at h1 ⊢
    exact h1
  · rw [h]
    exact drawsIn_left _ _ _ _ (complete_draws env.glfwCreateWindow fuel)

theorem draw_of_mem_trace (env : Env) (fuel : Nat) (c : Call) (hc : c ∈ (main env fuel).1)
    (hdraw : c.isDraw = true) :
    c = .glDrawElements .GL_TRIANGLES 9 .GL_UNSIGNED_INT 0 ∧
    Call.glBufferData .GL_ELEMENT_ARRAY_BUFFER sizeof_indices .indices .GL_STATIC_DRAW
      ∈ (main env fuel).1 := by
  have hno : ∀ d ∈ windowCalls ++ failureCalls, d.isDraw = false := by decide
  have hcomplete : ∀ n, c ∈ windowCalls ++ setupCalls env.glfwCreateWindow ++
      (iterations env.glfwCreateWindow n ++
        [Call.glfwWindowShouldClose env.glfwCreateWindow]) ++
      teardownCalls env.glfwCreateWindow →
      c = .glDrawElements .GL_TRIANGLES 9 .GL_UNSIGNED_INT 0 := by
    intro n hc
    have hall : (windowCalls ++ setupCalls env.glfwCreateWindow ++
        (Call.glfwWindowShouldClose env.glfwCreateWindow ::
          frameCalls env.glfwCreateWindow) ++ teardownCalls env.glfwCreateWindow).all
        (fun d => !d.isDraw || d = .glDrawElements .GL_TRIANGLES 9 .GL_UNSIGNED_INT 0)
        = true := rfl
    have hc2 : c ∈ windowCalls ++ setupCalls env.glfwCreateWindow ++
        (Call.glfwWindowShouldClose env.glfwCreateWindow ::
          frameCalls env.glfwCreateWindow) ++ teardownCalls env.glfwCreateWindow := by
      simp only [List.mem_append] at hc ⊢
      rcases hc with (hc | hc | hc) | hc
      · exact Or.inl (Or.inl hc)
      · exact Or.inl (Or.inr (mem_iterations _ _ _ hc))
      · rw [List.mem_singleton.mp hc]
        exact Or.inl (Or.inr (List.mem_cons_self _ _))
      · exact Or.inr hc
    have h := List.all_eq_true.mp hall c hc2
    simpa [hdraw] using h
  rcases main_shape env fuel with h | ⟨n, h⟩ | h
  · rw [h] at hc
    rw [hno c hc] at hdraw
    exact absurd hdraw (by decide)
  · rw [h] at hc ⊢
    exact ⟨hcomplete n hc, by simp [setupCalls]⟩
  · rw [h] at hc ⊢
    exact ⟨hcomplete fuel ((running_sublist _ fuel).subset hc), by simp [setupCalls]⟩

theorem bufferWrites_of_no_upload (l : List Call) :
    ∀ st : GLState, (∀ c ∈ l, c.isUpload = false) → bufferWrites st l = [] := by
  induction l with
  | nil => intro st _; rfl
  | cons c rest ih =>
    intro st h
    have hc := h c (List.mem_cons_self _ _)
    have hrest := ih (st.step c) (fun d hd => h d (List.mem_cons_of_mem _ hd))
    cases c <;> first | exact hrest | exact absurd hc (by simp [Call.isUpload])

theorem bufferWrites_append (l1 l2 : List Call) :
    ∀ st : GLState,
      bufferWrites st (l1 ++ l2) = bufferWrites st l1 ++ bufferWrites (st.run l1) l2 := by
  induction l1 with
  | nil => intro st; rfl
  | cons c rest ih =>
    intro st
    have hrest := ih (st.step c)
    cases c <;>
      first
      | exact hrest
      | exact congrArg (List.cons _) hrest

theorem loop_quiet (w : WindowPtr) (n : Nat) (c : Call)
    (hc : c ∈ iterations w n ++ [Call.glfwWindowShouldClose w]) :
    c.changesObjects = false ∧ c.isUpload = false ∧
      ∀ o : Obj, c.creates o = false ∧ c.deletes o = false := by
  have hc2 : c ∈ Call.glfwWindowShouldClose w :: frameCalls w := by
    rcases List.mem_append.mp hc with h | h
    · exact mem_iterations _ _ _ h
    · rw [List.mem_singleton.mp h]; exact List.mem_cons_self _ _
  simp only [frameCalls, List.mem_cons, List.mem_singleton, List.not_mem_nil,
    or_false] at hc2
  rcases hc2 with rfl | rfl | rfl | rfl | rfl | rfl | rfl | rfl <;>
    exact ⟨rfl, rfl, fun _ => ⟨rfl, rfl⟩⟩

/-! ## The call sequence: claims -/

/-- C3: when glfwCreateWindow returns nullptr, `main` returns -1 (a non-zero value) for
every amount of fuel; the diagnostic is written to standard output before it returns; the
calls of the run are exactly the five window calls, the two writes and glfwTerminate, so
none of them is an OpenGL call, none evaluates the loop condition, none belongs to a loop
body, and the only call after the message is glfwTerminate. -/
theorem window_creation_failure (env : Env) (fuel : Nat)
    (hnull : env.glfwCreateWindow = nullptr) :
    ∃ trace : List Call, main env fuel = (trace, some (-1)) ∧ (-1 : Int) ≠ 0 ∧
      trace =
        [ .glfwInit,
          .glfwWindowHint .GLFW_CONTEXT_VERSION_MAJOR (.lit 3),
          .glfwWindowHint .GLFW_CONTEXT_VERSION_MINOR (.lit 3),
          .glfwWindowHint .GLFW_OPENGL_PROFILE .GLFW_OPENGL_CORE_PROFILE,
          .glfwCreateWindow 800 800 "OpenGL Learning" nullptr nullptr,
          .cout "Failed to create GLFW window",
          .cout "\n",
          .glfwTerminate ] ∧
      (∀ c ∈ trace, c.isGL = false ∧ c.isDraw = false ∧ c.isClosePoll = false ∧
        c.changesObjects = false ∧ ∀ w, c ∉ frameCalls w) := by
  refine ⟨_, main_of_no_window env fuel hnull, by decide, rfl, ?_⟩
  intro c hc
  simp only [windowCalls, failureCalls, List.cons_append, List.nil_append, List.mem_cons,
    List.mem_singleton, List.not_mem_nil, or_false] at hc
  rcases hc with rfl | rfl | rfl | rfl | rfl | rfl | rfl | rfl <;>
    simp [Call.isGL, Call.isDraw, Call.isClosePoll, Call.changesObjects, frameCalls]

/-- C3, at a run in which glfwCreateWindow returns nullptr. -/
theorem window_creation_failure_witness :
    noWindowEnv.glfwCreateWindow = nullptr ∧
    ∃ trace : List Call, main noWindowEnv 0 = (trace, some (-1)) ∧ (-1 : Int) ≠ 0 ∧
      trace =
        [ .glfwInit,
          .glfwWindowHint .GLFW_CONTEXT_VERSION_MAJOR (.lit 3),
          .glfwWindowHint .GLFW_CONTEXT_VERSION_MINOR (.lit 3),
          .glfwWindowHint .GLFW_OPENGL_PROFILE .GLFW_OPENGL_CORE_PROFILE,
          .glfwCreateWindow 800 800 "OpenGL Learning" nullptr nullptr,
          .cout "Failed to create GLFW window",
          .cout "\n",
          .glfwTerminate ] ∧
      (∀ c ∈ trace, c.isGL = false ∧ c.isDraw = false ∧ c.isClosePoll = false ∧
        c.changesObjects = false ∧ ∀ w, c ∉ frameCalls w) :=
  ⟨rfl, window_creation_failure noWindowEnv 0 rfl⟩

/-- C7: when the window is created and the close poll answers false `n` times and then
true, `main` returns 0 for every amount of fuel above `n`, whatever the other fields of the
environment are.  Its calls, spelled out in full, are: the 33 calls before the loop (window
creation and set-up); `n` repetitions of (poll, glClearColor, glClear,
glUseProgram(shaderProgram), glBindVertexArray(VAO), glDrawElements, glfwSwapBuffers,
glfwPollEvents); the poll that ends the loop; and then the teardown: glDeleteVertexArrays
(VAO), glDeleteBuffers (VBO), glDeleteBuffers (EBO), glDeleteProgram (shaderProgram),
glfwDestroyWindow and glfwTerminate.  So there are exactly `n` draw calls and `n + 1`
polls, one at the head of each iteration and the one that ends the loop.  With fuel `k` at
or below `n` it is still inside the loop after `k` iterations and has not returned. -/
theorem render_loop_runs_n_frames (env : Env) (n : Nat)
    (hwin : env.glfwCreateWindow ≠ nullptr)
    (hopen : ∀ k, k < n → env.glfwWindowShouldClose k = false)
    (hclose : env.glfwWindowShouldClose n = true) :
    ∃ beforeLoop afterLoop trace : List Call,
      beforeLoop =
        [ Call.glfwInit,
          .glfwWindowHint .GLFW_CONTEXT_VERSION_MAJOR (.lit 3),
          .glfwWindowHint .GLFW_CONTEXT_VERSION_MINOR (.lit 3),
          .glfwWindowHint .GLFW_OPENGL_PROFILE .GLFW_OPENGL_CORE_PROFILE,
          .glfwCreateWindow 800 800 "OpenGL Learning" nullptr nullptr,
          .glfwMakeContextCurrent env.glfwCreateWindow,
          .gladLoadGL,
          .glViewport 0 0 800 800,
          .glCreateShader .GL_VERTEX_SHADER .vertexShader,
          .glShaderSource .vertexShader 1 .vertex_shader_source .nullptr,
          .glCompileShader .vertexShader,
          .glCreateShader .GL_FRAGMENT_SHADER .fragmentShader,
          .glShaderSource .fragmentShader 1 .fragment_shader_source .nullptr,
          .glCompileShader .fragmentShader,
          .glCreateProgram .shaderProgram,
          .glAttachShader .shaderProgram .vertexShader,
          .glAttachShader .shaderProgram .fragmentShader,
          .glLinkProgram .shaderProgram,
          .glDeleteShader .vertexShader,
          .glDeleteShader .fragmentShader,
          .glGenVertexArrays 1 .VAO,
          .glGenBuffers 1 .VBO,
          .glGenBuffers 1 .EBO,
          .glBindVertexArray (some .VAO),
          .glBindBuffer .GL_ARRAY_BUFFER (some .VBO),
          .glBufferData .GL_ARRAY_BUFFER 72 .vertices .GL_STATIC_DRAW,
          .glBindBuffer .GL_ELEMENT_ARRAY_BUFFER (some .EBO),
          .glBufferData .GL_ELEMENT_ARRAY_BUFFER 36 .indices .GL_STATIC_DRAW,
          .glVertexAttribPointer 0 3 .GL_FLOAT false 12 0,
          .glEnableVertexAttribArray 0,
          .glBindBuffer .GL_ARRAY_BUFFER none,
          .glBindVertexArray none,
          .glBindBuffer .GL_ELEMENT_ARRAY_BUFFER none ] ∧
      afterLoop =
        [ Call.glfwWindowShouldClose env.glfwCreateWindow,
          .glDeleteVertexArrays 1 .VAO,
          .glDeleteBuffers 1 .VBO,
          .glDeleteBuffers 1 .EBO,
          .glDeleteProgram .shaderProgram,
          .glfwDestroyWindow env.glfwCreateWindow,
          .glfwTerminate ] ∧
      trace = beforeLoop ++
        (List.replicate n
          [ Call.glfwWindowShouldClose env.glfwCreateWindow,
            .glClearColor ⟨7, 2⟩ ⟨13, 2⟩ ⟨17, 2⟩ ⟨10, 1⟩,
            .glClear .GL_COLOR_BUFFER_BIT,
            .glUseProgram (some .shaderProgram),
            .glBindVertexArray (some .VAO),
            .glDrawElements .GL_TRIANGLES 9 .GL_UNSIGNED_INT 0,
            .glfwSwapBuffers env.glfwCreateWindow,
            .glfwPollEvents ]).flatten ++
        afterLoop ∧
      (∀ fuel, n < fuel → main env fuel = (trace, some 0)) ∧
      (∀ fuel, fuel ≤ n → main env fuel =
        (beforeLoop ++
          (List.replicate fuel
            [ Call.glfwWindowShouldClose env.glfwCreateWindow,
            .glClearColor ⟨7, 2⟩ ⟨13, 2⟩ ⟨17, 2⟩ ⟨10, 1⟩,
            .glClear .GL_COLOR_BUFFER_BIT,
            .glUseProgram (some .shaderProgram),
            .glBindVertexArray (some .VAO),
            .glDrawElements .GL_TRIANGLES 9 .GL_UNSIGNED_INT 0,
            .glfwSwapBuffers env.glfwCreateWindow,
            .glfwPollEvents ]).flatten, none)) ∧
      trace.countP Call.isDraw = n ∧
      trace.countP Call.isClosePoll = n + 1 := by
  have hflat : ∀ m, iterations env.glfwCreateWindow m =
      (List.replicate m (Call.glfwWindowShouldClose env.glfwCreateWindow ::
        frameCalls env.glfwCreateWindow)).flatten :=
    iterations_eq_flatten env.glfwCreateWindow
  refine ⟨_, _, _, rfl, rfl, rfl, ?_, ?_, ?_, ?_⟩
  · intro fuel hfuel
    rw [main_of_close env n fuel hwin hopen hclose hfuel, hflat]
    show (windowCalls ++ setupCalls env.glfwCreateWindow ++
        ((List.replicate n (Call.glfwWindowShouldClose env.glfwCreateWindow ::
          frameCalls env.glfwCreateWindow)).flatten ++
          [Call.glfwWindowShouldClose env.glfwCreateWindow]) ++
        teardownCalls env.glfwCreateWindow, some (0 : Int)) =
      (windowCalls ++ setupCalls env.glfwCreateWindow ++
        (List.replicate n (Call.glfwWindowShouldClose env.glfwCreateWindow ::
          frameCalls env.glfwCreateWindow)).flatten ++
        ([Call.glfwWindowShouldClose env.glfwCreateWindow] ++
          teardownCalls env.glfwCreateWindow), some (0 : Int))
    simp only [List.append_assoc]
  · intro fuel hfuel
    rw [main_of_open env fuel hwin (fun j hj => hopen j (by omega)), hflat]
    rfl
  · show (windowCalls ++ setupCalls env.glfwCreateWindow ++
        (List.replicate n (Call.glfwWindowShouldClose env.glfwCreateWindow ::
          frameCalls env.glfwCreateWindow)).flatten ++
        ([Call.glfwWindowShouldClose env.glfwCreateWindow] ++
          teardownCalls env.glfwCreateWindow)).countP Call.isDraw = n
    rw [← hflat, List.countP_append, List.countP_append, countP_iterations]
    have h1 : (windowCalls ++ setupCalls env.glfwCreateWindow).countP Call.isDraw = 0 := rfl
    have h2 : (Call.glfwWindowShouldClose env.glfwCreateWindow ::
      frameCalls env.glfwCreateWindow).countP Call.isDraw = 1 := rfl
    have h3 : ([Call.glfwWindowShouldClose env.glfwCreateWindow] ++
      teardownCalls env.glfwCreateWindow).countP Call.isDraw = 0 := rfl
    rw [h1, h2, h3]; omega
  · show (windowCalls ++ setupCalls env.glfwCreateWindow ++
        (List.replicate n (Call.glfwWindowShouldClose env.glfwCreateWindow ::
          frameCalls env.glfwCreateWindow)).flatten ++
        ([Call.glfwWindowShouldClose env.glfwCreateWindow] ++
          teardownCalls env.glfwCreateWindow)).countP Call.isClosePoll = n + 1
    rw [← hflat, List.countP_append, List.countP_append, countP_iterations]
    have h1 : (windowCalls ++ setupCalls env.glfwCreateWindow).countP Call.isClosePoll = 0 :=
      rfl
    have h2 : (Call.glfwWindowShouldClose env.glfwCreateWindow ::
      frameCalls env.glfwCreateWindow).countP Call.isClosePoll = 1 := rfl
    have h3 : ([Call.glfwWindowShouldClose env.glfwCreateWindow] ++
      teardownCalls env.glfwCreateWindow).countP Call.isClosePoll = 1 := rfl
    rw [h1, h2, h3]; omega

/-- C7, at a run in which the window asks to close at the third poll. -/
theorem render_loop_runs_n_frames_witness :
    sampleEnv.glfwCreateWindow ≠ nullptr ∧
    (∀ k, k < 2 → sampleEnv.glfwWindowShouldClose k = false) ∧
    sampleEnv.glfwWindowShouldClose 2 = true ∧
    ∃ beforeLoop afterLoop trace : List Call,
      beforeLoop =
        [ Call.glfwInit,
          .glfwWindowHint .GLFW_CONTEXT_VERSION_MAJOR (.lit 3),
          .glfwWindowHint .GLFW_CONTEXT_VERSION_MINOR (.lit 3),
          .glfwWindowHint .GLFW_OPENGL_PROFILE .GLFW_OPENGL_CORE_PROFILE,
          .glfwCreateWindow 800 800 "OpenGL Learning" nullptr nullptr,
          .glfwMakeContextCurrent sampleEnv.glfwCreateWindow,
          .gladLoadGL,
          .glViewport 0 0 800 800,
          .glCreateShader .GL_VERTEX_SHADER .vertexShader,
          .glShaderSource .vertexShader 1 .vertex_shader_source .nullptr,
          .glCompileShader .vertexShader,
          .glCreateShader .GL_FRAGMENT_SHADER .fragmentShader,
          .glShaderSource .fragmentShader 1 .fragment_shader_source .nullptr,
          .glCompileShader .fragmentShader,
          .glCreateProgram .shaderProgram,
          .glAttachShader .shaderProgram .vertexShader,
          .glAttachShader .shaderProgram .fragmentShader,
          .glLinkProgram .shaderProgram,
          .glDeleteShader .vertexShader,
          .glDeleteShader .fragmentShader,
          .glGenVertexArrays 1 .VAO,
          .glGenBuffers 1 .VBO,
          .glGenBuffers 1 .EBO,
          .glBindVertexArray (some .VAO),
          .glBindBuffer .GL_ARRAY_BUFFER (some .VBO),
          .glBufferData .GL_ARRAY_BUFFER 72 .vertices .GL_STATIC_DRAW,
          .glBindBuffer .GL_ELEMENT_ARRAY_BUFFER (some .EBO),
          .glBufferData .GL_ELEMENT_ARRAY_BUFFER 36 .indices .GL_STATIC_DRAW,
          .glVertexAttribPointer 0 3 .GL_FLOAT false 12 0,
          .glEnableVertexAttribArray 0,
          .glBindBuffer .GL_ARRAY_BUFFER none,
          .glBindVertexArray none,
          .glBindBuffer .GL_ELEMENT_ARRAY_BUFFER none ] ∧
      afterLoop =
        [ Call.glfwWindowShouldClose sampleEnv.glfwCreateWindow,
          .glDeleteVertexArrays 1 .VAO,
          .glDeleteBuffers 1 .VBO,
          .glDeleteBuffers 1 .EBO,
          .glDeleteProgram .shaderProgram,
          .glfwDestroyWindow sampleEnv.glfwCreateWindow,
          .glfwTerminate ] ∧
      trace = beforeLoop ++
        (List.replicate 2
          [ Call.glfwWindowShouldClose sampleEnv.glfwCreateWindow,
            .glClearColor ⟨7, 2⟩ ⟨13, 2⟩ ⟨17, 2⟩ ⟨10, 1⟩,
            .glClear .GL_COLOR_BUFFER_BIT,
            .glUseProgram (some .shaderProgram),
            .glBindVertexArray (some .VAO),
            .glDrawElements .GL_TRIANGLES 9 .GL_UNSIGNED_INT 0,
            .glfwSwapBuffers sampleEnv.glfwCreateWindow,
            .glfwPollEvents ]).flatten ++
        afterLoop ∧
      (∀ fuel, 2 < fuel → main sampleEnv fuel = (trace, some 0)) ∧
      (∀ fuel, fuel ≤ 2 → main sampleEnv fuel =
        (beforeLoop ++
          (List.replicate fuel
            [ Call.glfwWindowShouldClose sampleEnv.glfwCreateWindow,
            .glClearColor ⟨7, 2⟩ ⟨13, 2⟩ ⟨17, 2⟩ ⟨10, 1⟩,
            .glClear .GL_COLOR_BUFFER_BIT,
            .glUseProgram (some .shaderProgram),
            .glBindVertexArray (some .VAO),
            .glDrawElements .GL_TRIANGLES 9 .GL_UNSIGNED_INT 0,
            .glfwSwapBuffers sampleEnv.glfwCreateWindow,
            .glfwPollEvents ]).flatten, none)) ∧
      trace.countP Call.isDraw = 2 ∧
      trace.countP Call.isClosePoll = 2 + 1 :=
  ⟨by decide, by decide, by decide,
    render_loop_runs_n_frames sampleEnv 2 (by decide) (by decide) (by decide)⟩

/-- C6: every draw call that `main` issues, in a run that returns or in one that is still
inside the loop, is glDrawElements(GL_TRIANGLES, 9, GL_UNSIGNED_INT, 0); each loop body
issues exactly one; the count 9 is 3 * 3, the number of elements of `indices`, and
`sizeof(indices)` divided by the 4 bytes of one index; the index triples are 3;
`sizeof(indices)` bytes of `indices` are what the run uploads to the element buffer; and
the positions read, offset 0 up to 0 + 9, are exactly the positions of `indices`. -/
theorem draw_call_arguments (env : Env) (fuel : Nat) (c : Call)
    (hc : c ∈ (main env fuel).1) (hdraw : c.isDraw = true) :
    c = .glDrawElements .GL_TRIANGLES 9 .GL_UNSIGNED_INT 0 ∧
    (frameCalls env.glfwCreateWindow).filter Call.isDraw =
      [.glDrawElements .GL_TRIANGLES 9 .GL_UNSIGNED_INT 0] ∧
    9 = 3 * 3 ∧ (triangles indices).length = 3 ∧ indices.length = 9 ∧
    sizeof_indices / sizeof_GLuint = 9 ∧
    Call.glBufferData .GL_ELEMENT_ARRAY_BUFFER sizeof_indices .indices .GL_STATIC_DRAW
      ∈ (main env fuel).1 ∧
    List.range' (0 / sizeof_GLuint) 9 = List.range indices.length := by
  obtain ⟨h1, h2⟩ := draw_of_mem_trace env fuel c hc hdraw
  exact ⟨h1, rfl, rfl, rfl, rfl, rfl, h2, rfl⟩

/-- C6, at the draw call of a run that shows two frames. -/
theorem draw_call_arguments_witness :
    Call.glDrawElements .GL_TRIANGLES 9 .GL_UNSIGNED_INT 0 ∈ (main sampleEnv 3).1 ∧
    (Call.glDrawElements .GL_TRIANGLES 9 .GL_UNSIGNED_INT 0).isDraw = true ∧
    (frameCalls sampleEnv.glfwCreateWindow).filter Call.isDraw =
      [.glDrawElements .GL_TRIANGLES 9 .GL_UNSIGNED_INT 0] ∧
    9 = 3 * 3 ∧ (triangles indices).length = 3 ∧ indices.length = 9 ∧
    sizeof_indices / sizeof_GLuint = 9 ∧
    Call.glBufferData .GL_ELEMENT_ARRAY_BUFFER sizeof_indices .indices .GL_STATIC_DRAW
      ∈ (main sampleEnv 3).1 ∧
    List.range' (0 / sizeof_GLuint) 9 = List.range indices.length :=
  ⟨by decide, rfl,
    (draw_call_arguments sampleEnv 3 (.glDrawElements .GL_TRIANGLES 9 .GL_UNSIGNED_INT 0)
      (by decide) rfl).2⟩

/-- C4: in the calls that `main` issues, whether the run fails to create the window,
returns after the teardown or is still inside the loop, for every call `a` issued before a
call `b`: if `a` deletes the object of a variable then `b` does not name that variable;
after the second glDeleteShader `b` names neither shader; after glDeleteProgram, the last
teardown delete, `b` names none of VAO, VBO, EBO and shaderProgram; if `a` is one of the
teardown deletes then `b` neither draws nor touches objects through the bindings; and if
`a` is glfwTerminate then `b` is neither a GLFW nor an OpenGL call. -/
theorem no_use_after_teardown (env : Env) (fuel : Nat) :
    (main env fuel).1.Pairwise (fun a b =>
      (∀ o, a.deletes o = true → b.names o = false) ∧
      (a.deletes .fragmentShader = true →
        b.names .vertexShader = false ∧ b.names .fragmentShader = false) ∧
      (a.deletes .shaderProgram = true →
        ∀ o, o ∈ [Obj.VAO, Obj.VBO, Obj.EBO, Obj.shaderProgram] → b.names o = false) ∧
      (∀ o, o ∈ [Obj.VAO, Obj.VBO, Obj.EBO, Obj.shaderProgram] →
        a.deletes o = true → b.usesBindings = false) ∧
      (a = .glfwTerminate → b.isGLFW = false ∧ b.isGL = false)) :=
  (trace_laterCallOk env fuel).imp (fun h => laterCallOk_spec _ _ h)

/-- C8: at every glDrawElements call that `main` issues (its calls split as `before`, the
draw call, `after`), the binding state reached by the calls `before` has shaderProgram as
current program and VAO as bound vertex array; the element array buffer binding of VAO is
EBO, whose data store holds the `sizeof(indices)` bytes, 9 indices, of `indices`; and
attribute 0 of VAO is enabled and sourced from VBO (which holds `vertices`) with 3
components of type GL_FLOAT and a stride of 12 bytes. -/
theorem draw_finds_bound_state (env : Env) (fuel : Nat) (before after : List Call)
    (c : Call) (hsplit : (main env fuel).1 = before ++ c :: after)
    (hdraw : c.isDraw = true) :
    (GLState.initial.run before).currentProgram = some .shaderProgram ∧
    (GLState.initial.run before).vertexArrayBinding = some .VAO ∧
    ((GLState.initial.run before).vertexArray (some .VAO)).elementArrayBuffer = some .EBO ∧
    (GLState.initial.run before).bufferStore .EBO =
      some ⟨sizeof_indices, .indices, .GL_STATIC_DRAW⟩ ∧
    sizeof_indices / sizeof_GLuint = 9 ∧
    (GLState.initial.run before).bufferStore .VBO =
      some ⟨sizeof_vertices, .vertices, .GL_STATIC_DRAW⟩ ∧
    (((GLState.initial.run before).vertexArray (some .VAO)).attrib 0).enabled = true ∧
    (((GLState.initial.run before).vertexArray (some .VAO)).attrib 0).buffer = some .VBO ∧
    (((GLState.initial.run before).vertexArray (some .VAO)).attrib 0).size = 3 ∧
    (((GLState.initial.run before).vertexArray (some .VAO)).attrib 0).type = .GL_FLOAT ∧
    (((GLState.initial.run before).vertexArray (some .VAO)).attrib 0).stride = 12 := by
  have h := trace_draws env fuel
  rw [hsplit] at h
  obtain ⟨h1, h2, h3, h4, h5, h6, h7, h8, h9, -, h11, -⟩ :=
    drawsIn_split GLState.ReadyToDraw before c after hdraw _ h
  exact ⟨h1, h2, h3, h4, rfl, h5, h6, h7, h8, h9, h11⟩

/-- C8, at the second draw call of a run that shows two frames. -/
theorem draw_finds_bound_state_witness :
    (main sampleEnv 3).1 = sampleTrace.take 46 ++
      Call.glDrawElements .GL_TRIANGLES 9 .GL_UNSIGNED_INT 0 :: sampleTrace.drop 47 ∧
    (Call.glDrawElements .GL_TRIANGLES 9 .GL_UNSIGNED_INT 0).isDraw = true ∧
    (GLState.initial.run (sampleTrace.take 46)).currentProgram = some .shaderProgram ∧
    (GLState.initial.run (sampleTrace.take 46)).vertexArrayBinding = some .VAO ∧
    ((GLState.initial.run (sampleTrace.take 46)).vertexArray (some .VAO)).elementArrayBuffer = some .EBO ∧
    (GLState.initial.run (sampleTrace.take 46)).bufferStore .EBO =
      some ⟨sizeof_indices, .indices, .GL_STATIC_DRAW⟩ ∧
    sizeof_indices / sizeof_GLuint = 9 ∧
    (GLState.initial.run (sampleTrace.take 46)).bufferStore .VBO =
      some ⟨sizeof_vertices, .vertices, .GL_STATIC_DRAW⟩ ∧
    (((GLState.initial.run (sampleTrace.take 46)).vertexArray (some .VAO)).attrib 0).enabled = true ∧
    (((GLState.initial.run (sampleTrace.take 46)).vertexArray (some .VAO)).attrib 0).buffer = some .VBO ∧
    (((GLState.initial.run (sampleTrace.take 46)).vertexArray (some .VAO)).attrib 0).size = 3 ∧
    (((GLState.initial.run (sampleTrace.take 46)).vertexArray (some .VAO)).attrib 0).type = .GL_FLOAT ∧
    (((GLState.initial.run (sampleTrace.take 46)).vertexArray (some .VAO)).attrib 0).stride = 12 :=
  ⟨by decide, rfl,
    draw_finds_bound_state sampleEnv 3 (sampleTrace.take 46) (sampleTrace.drop 47)
      (.glDrawElements .GL_TRIANGLES 9 .GL_UNSIGNED_INT 0) (by decide) rfl⟩

/-- C9: when the window is created and the close poll answers false `n` times and then
true, `main` returns 0 with enough fuel and its calls are the calls before the loop, then
`n` iterations and the last poll, then the teardown calls.  Each of the six objects is
created by exactly one call, which is before the loop, and deleted by exactly one call: the
two shaders right after glLinkProgram, the other four by the first four teardown calls,
which are followed by glfwDestroyWindow and glfwTerminate.  The glBufferData calls of the
run are two, both before the loop, the first writing VBO and the second writing EBO.  No
call of the loop creates, deletes or writes an object, and every loop body leaves the
vertex array states and the buffer data stores as they were. -/
theorem gpu_objects_created_once_deleted_once (env : Env) (n : Nat)
    (hwin : env.glfwCreateWindow ≠ nullptr)
    (hopen : ∀ k, k < n → env.glfwWindowShouldClose k = false)
    (hclose : env.glfwWindowShouldClose n = true) :
    ∃ (trace beforeLoop loop afterLoop : List Call),
      (∀ fuel, n < fuel → main env fuel = (trace, some 0)) ∧
      trace = beforeLoop ++ loop ++ afterLoop ∧
      beforeLoop = windowCalls ++ setupCalls env.glfwCreateWindow ∧
      loop = (List.replicate n
          (Call.glfwWindowShouldClose env.glfwCreateWindow ::
            frameCalls env.glfwCreateWindow)).flatten ++
        [Call.glfwWindowShouldClose env.glfwCreateWindow] ∧
      afterLoop =
        [ .glDeleteVertexArrays 1 .VAO, .glDeleteBuffers 1 .VBO, .glDeleteBuffers 1 .EBO,
          .glDeleteProgram .shaderProgram, .glfwDestroyWindow env.glfwCreateWindow,
          .glfwTerminate ] ∧
      (∀ o : Obj, trace.countP (fun c => c.creates o) = 1 ∧
        beforeLoop.countP (fun c => c.creates o) = 1) ∧
      (∀ o : Obj, trace.countP (fun c => c.deletes o) = 1) ∧
      (∃ l1 l2 : List Call, beforeLoop =
        l1 ++ [Call.glLinkProgram .shaderProgram, .glDeleteShader .vertexShader,
          .glDeleteShader .fragmentShader] ++ l2 ∧
        ∀ c ∈ l2 ++ loop ++ afterLoop,
          c.deletes .vertexShader = false ∧ c.deletes .fragmentShader = false) ∧
      (∀ o : Obj, o ∈ [Obj.VAO, Obj.VBO, Obj.EBO, Obj.shaderProgram] →
        afterLoop.countP (fun c => c.deletes o) = 1) ∧
      bufferWrites GLState.initial trace = [some .VBO, some .EBO] ∧
      bufferWrites GLState.initial beforeLoop = [some .VBO, some .EBO] ∧
      (∀ c ∈ loop, c.changesObjects = false ∧ c.isUpload = false ∧
        ∀ o : Obj, c.creates o = false ∧ c.deletes o = false) ∧
      (∀ st : GLState,
        (st.run (frameCalls env.glfwCreateWindow)).vertexArray = st.vertexArray ∧
        (st.run (frameCalls env.glfwCreateWindow)).bufferStore = st.bufferStore) := by
  have hquiet := loop_quiet env.glfwCreateWindow n
  have hcreate0 : ∀ o : Obj, (iterations env.glfwCreateWindow n ++
      [Call.glfwWindowShouldClose env.glfwCreateWindow]).countP (fun c => c.creates o) = 0 := by
    intro o
    rw [List.countP_eq_zero]
    intro c hc
    rw [((hquiet c hc).2.2 o).1]
    decide
  have hdelete0 : ∀ o : Obj, (iterations env.glfwCreateWindow n ++
      [Call.glfwWindowShouldClose env.glfwCreateWindow]).countP (fun c => c.deletes o) = 0 := by
    intro o
    rw [List.countP_eq_zero]
    intro c hc
    rw [((hquiet c hc).2.2 o).2]
    decide
  refine ⟨_, windowCalls ++ setupCalls env.glfwCreateWindow,
    iterations env.glfwCreateWindow n ++ [Call.glfwWindowShouldClose env.glfwCreateWindow],
    teardownCalls env.glfwCreateWindow,
    fun fuel hfuel => main_of_close env n fuel hwin hopen hclose hfuel, rfl, rfl,
    by rw [iterations_eq_flatten], rfl, ?_, ?_, ?_, ?_, ?_, ?_, ?_, ?_⟩
  · intro o
    have h1 : (windowCalls ++ setupCalls env.glfwCreateWindow).countP
        (fun c => c.creates o) = 1 := by cases o <;> rfl
    have h2 : (teardownCalls env.glfwCreateWindow).countP (fun c => c.creates o) = 0 := by
      cases o <;> rfl
    rw [List.countP_append, List.countP_append, h1, h2, hcreate0 o]
    exact ⟨rfl, rfl⟩
  · intro o
    have h1 : (windowCalls ++ setupCalls env.glfwCreateWindow).countP
        (fun c => c.deletes o) + (teardownCalls env.glfwCreateWindow).countP
        (fun c => c.deletes o) = 1 := by cases o <;> rfl
    rw [List.countP_append, List.countP_append, hdelete0 o]
    omega
  · refine ⟨(windowCalls ++ setupCalls env.glfwCreateWindow).take 17,
      (windowCalls ++ setupCalls env.glfwCreateWindow).drop 20, rfl, ?_⟩
    intro c hc
    rcases List.mem_append.mp hc with h | h
    · rcases List.mem_append.mp h with h | h
      · have hall : ((windowCalls ++ setupCalls env.glfwCreateWindow).drop 20).all
            (fun c => !c.deletes .vertexShader && !c.deletes .fragmentShader) = true := rfl
        simpa using List.all_eq_true.mp hall c h
      · exact ⟨((hquiet c h).2.2 _).2, ((hquiet c h).2.2 _).2⟩
    · have hall : (teardownCalls env.glfwCreateWindow).all
          (fun c => !c.deletes .vertexShader && !c.deletes .fragmentShader) = true := rfl
      simpa using List.all_eq_true.mp hall c h
  · intro o ho
    simp only [List.mem_cons, List.mem_singleton, List.not_mem_nil, or_false] at ho
    rcases ho with rfl | rfl | rfl | rfl <;> rfl
  · have hloop : ∀ st : GLState, bufferWrites st (iterations env.glfwCreateWindow n ++
        [Call.glfwWindowShouldClose env.glfwCreateWindow]) = [] :=
      fun st => bufferWrites_of_no_upload _ st (fun c hc => (hquiet c hc).2.1)
    have htear : ∀ st : GLState, bufferWrites st (teardownCalls env.glfwCreateWindow) = [] :=
      fun st => bufferWrites_of_no_upload _ st (by
        have hall : (teardownCalls env.glfwCreateWindow).all (fun c => !c.isUpload) = true :=
          rfl
        intro c hc
        simpa using List.all_eq_true.mp hall c hc)
    have hsetup : bufferWrites GLState.initial
        (windowCalls ++ setupCalls env.glfwCreateWindow) = [some .VBO, some .EBO] := rfl
    rw [bufferWrites_append, bufferWrites_append, hsetup, hloop, htear]
    rfl
  · rfl
  · intro c hc
    exact hquiet c hc
  · intro st
    exact ⟨rfl, rfl⟩

/-- C9, at a run in which the window asks to close at the third poll. -/
theorem gpu_objects_created_once_deleted_once_witness :
    sampleEnv.glfwCreateWindow ≠ nullptr ∧
    (∀ k, k < 2 → sampleEnv.glfwWindowShouldClose k = false) ∧
    sampleEnv.glfwWindowShouldClose 2 = true ∧
    ∃ (trace beforeLoop loop afterLoop : List Call),
      (∀ fuel, 2 < fuel → main sampleEnv fuel = (trace, some 0)) ∧
      trace = beforeLoop ++ loop ++ afterLoop ∧
      beforeLoop = windowCalls ++ setupCalls sampleEnv.glfwCreateWindow ∧
      loop = (List.replicate 2
          (Call.glfwWindowShouldClose sampleEnv.glfwCreateWindow ::
            frameCalls sampleEnv.glfwCreateWindow)).flatten ++
        [Call.glfwWindowShouldClose sampleEnv.glfwCreateWindow] ∧
      afterLoop =
        [ .glDeleteVertexArrays 1 .VAO, .glDeleteBuffers 1 .VBO, .glDeleteBuffers 1 .EBO,
          .glDeleteProgram .shaderProgram, .glfwDestroyWindow sampleEnv.glfwCreateWindow,
          .glfwTerminate ] ∧
      (∀ o : Obj, trace.countP (fun c => c.creates o) = 1 ∧
        beforeLoop.countP (fun c => c.creates o) = 1) ∧
      (∀ o : Obj, trace.countP (fun c => c.deletes o) = 1) ∧
      (∃ l1 l2 : List Call, beforeLoop =
        l1 ++ [Call.glLinkProgram .shaderProgram, .glDeleteShader .vertexShader,
          .glDeleteShader .fragmentShader] ++ l2 ∧
        ∀ c ∈ l2 ++ loop ++ afterLoop,
          c.deletes .vertexShader = false ∧ c.deletes .fragmentShader = false) ∧
      (∀ o : Obj, o ∈ [Obj.VAO, Obj.VBO, Obj.EBO, Obj.shaderProgram] →
        afterLoop.countP (fun c => c.deletes o) = 1) ∧
      bufferWrites GLState.initial trace = [some .VBO, some .EBO] ∧
      bufferWrites GLState.initial beforeLoop = [some .VBO, some .EBO] ∧
      (∀ c ∈ loop, c.changesObjects = false ∧ c.isUpload = false ∧
        ∀ o : Obj, c.creates o = false ∧ c.deletes o = false) ∧
      (∀ st : GLState,
        (st.run (frameCalls sampleEnv.glfwCreateWindow)).vertexArray = st.vertexArray ∧
        (st.run (frameCalls sampleEnv.glfwCreateWindow)).bufferStore = st.bufferStore) :=
  ⟨by decide, by decide, by decide,
    gpu_objects_created_once_deleted_once sampleEnv 2 (by decide) (by decide) (by decide)⟩

end OpenGLLearning
